import Mathlib

/-!
# webconsole: subscriber helpers, inventory handlers and routes of the configuration API

A shallow embedding of `configapi/subscriber_helpers.go`, of the handlers of
`configapi/api_inventory.go`, of the table of `configapi/routers.go` and of the
parts of the document-store gateway they drive, with the properties of the
device-group membership delta, of the transactional subscriber writes, of the
subscriber cleanup, and of the inventory events and reads.
-/

namespace Webconsole

/-! ## Data model -/

/-- The fields of `configmodels.DeviceGroups` that the subscriber helpers read:
the group name and the ordered list of member identifiers. A `*DeviceGroups`
that may be nil is an `Option DeviceGroups`. -/
structure DeviceGroups where
  DeviceGroupName : String
  Imsis : List String
  deriving DecidableEq, Repr

/-- Inner loop of `getDeletedImsisList`: scans every entry of the new membership
and raises the flag on a match, without leaving the loop early. -/
def getDeletedImsisList.scan (pimsi : String) (imsis : List String) : Bool :=
  imsis.foldl (fun found imsi => if pimsi = imsi then true else found) false

/-- `getDeletedImsisList(group, prevGroup)`: a nil `prevGroup` yields the nil
slice, a nil `group` yields `prevGroup.Imsis`, and otherwise every entry of
`prevGroup.Imsis` that the inner scan did not find is appended in turn. -/
def getDeletedImsisList (group prevGroup : Option DeviceGroups) : List String :=
  match prevGroup with
  | none => []
  | some prev =>
    match group with
    | none => prev.Imsis
    | some g =>
      prev.Imsis.foldl
        (fun dimsis pimsi =>
          if !(getDeletedImsisList.scan pimsi g.Imsis) then dimsis ++ [pimsi] else dimsis)
        []

/-! ## Documents and configuration -/

/-- A Go value held in a `bson.M`, by its JSON shape. -/
inductive Any where
  | null
  | bool (b : Bool)
  | num (n : Int)
  | str (s : String)
  | arr (items : List Any)
  | doc (fields : List (String × Any))
  deriving Repr

/-- A `bson.M` / `map[string]any`: the entries of the map, one per key. -/
abbrev BsonM := List (String × Any)

/-- Read of a map entry, `m[key]`. -/
def BsonM.get (m : BsonM) (key : String) : Option Any :=
  m.lookup key

/-- Map assignment `m[key] = value`: the former entry for `key`, if any, is
replaced. -/
def BsonM.set (m : BsonM) (key : String) (value : Any) : BsonM :=
  (key, value) :: m.filter (fun entry => entry.1 != key)

/-- A non-nil `*models.AuthenticationSubscription` handed to the helpers. The
type belongs to an external library and is a plain value object; it is
represented by the field map of its JSON encoding. -/
structure AuthenticationSubscription where
  fields : BsonM
  deriving Repr

/-- Modelled from the spec: `configmodels.ToBsonM` is not among the sources at
hand. The data-model structs are plain value objects and `ToBsonM` turns one
into a `bson.M` through its JSON encoding; on the field map that represents a
value here, the conversion gives that map back. -/
def ToBsonM (data : BsonM) : BsonM := data

/-- The `factory.Mongodb` block of the process configuration. -/
structure Mongodb where
  Name : String
  Url : String
  AuthKeysDbName : String
  AuthUrl : String
  WebuiDBName : String
  WebuiDBUrl : String
  deriving Repr

/-- The part of `factory.Configuration` the subscriber helpers read. -/
structure Configuration where
  Mongodb : Mongodb
  deriving Repr

/-- The part of `factory.Config` the subscriber helpers read; the package
variable `factory.WebUIConfig` is passed explicitly, with the pointers down to
the `Mongodb` block set, as after start-up. -/
structure Config where
  Configuration : Configuration
  deriving Repr

/-- Collection names used by the subscriber helpers. They are package constants
of `configapi` declared outside the sources at hand and are taken as
parameters. -/
structure Collections where
  authSubsDataColl : String
  amDataColl : String
  amPolicyDataColl : String
  smPolicyDataColl : String
  smDataColl : String
  smfSelDataColl : String
  devGroupDataColl : String
  deriving Repr

/-! ## Collection gateway and session runner -/

/-- A Go `error` value that is not nil; `Option Error` is a nilable `error`. -/
abbrev Error := String

/-- The session-bound operations of `dbadapter.DBInterface` that the subscriber
helpers call, with their arguments. -/
inductive DBCall where
  | RestfulAPIPostOnDB (dbName collName : String) (filter postData : BsonM)
  | RestfulAPIPostWithContext (collName : String) (filter postData : BsonM)
  | RestfulAPIPutOneOnDB (dbName collName : String) (filter putData : BsonM)
  | RestfulAPIPutOneWithContext (collName : String) (filter putData : BsonM)
  | RestfulAPIDeleteOneOnDB (dbName collName : String) (filter : BsonM)
  | RestfulAPIDeleteOneWithContext (collName : String) (filter : BsonM)
  deriving Repr

/-- The calls a client has received, oldest first, each with its outcome
(`none` for success). -/
abbrev CallLog := List (DBCall × Option Error)

/-- Modelled from the spec: the implementations of `dbadapter.DBInterface` are
not among the sources at hand (only the recording `txMockDB` of the tests is).
A client is a collection gateway (§4.2) observed from outside: `failure` is the
store's behaviour, the error a call meets given the calls received before it;
`log` records every call received, as `txMockDB` does, failed ones included;
`session` holds the writes accepted inside the open session and `committed`
the writes durably applied. -/
structure DBClient where
  failure : CallLog → DBCall → Option Error
  log : CallLog
  session : List DBCall
  committed : List DBCall

/-- One call on the gateway inside the open session: it is logged with its
outcome and, when it succeeds, staged in the session. -/
def DBClient.issue (db : DBClient) (call : DBCall) : Option Error × DBClient :=
  match db.failure db.log call with
  | some err => (some err, { db with log := db.log ++ [(call, some err)] })
  | none =>
    (none, { db with log := db.log ++ [(call, none)], session := db.session ++ [call] })

/-- Gateway method `RestfulAPIPostOnDB(ctx, dbName, collName, filter, postData)`;
the boolean it also returns is discarded by every caller here. -/
def DBClient.RestfulAPIPostOnDB (db : DBClient) (dbName collName : String)
    (filter postData : BsonM) : Option Error × DBClient :=
  db.issue (.RestfulAPIPostOnDB dbName collName filter postData)

/-- Gateway method `RestfulAPIPostWithContext(ctx, collName, filter, postData)`. -/
def DBClient.RestfulAPIPostWithContext (db : DBClient) (collName : String)
    (filter postData : BsonM) : Option Error × DBClient :=
  db.issue (.RestfulAPIPostWithContext collName filter postData)

/-- Gateway method `RestfulAPIPutOneOnDB(ctx, dbName, collName, filter, putData)`. -/
def DBClient.RestfulAPIPutOneOnDB (db : DBClient) (dbName collName : String)
    (filter putData : BsonM) : Option Error × DBClient :=
  db.issue (.RestfulAPIPutOneOnDB dbName collName filter putData)

/-- Gateway method `RestfulAPIPutOneWithContext(ctx, collName, filter, putData)`. -/
def DBClient.RestfulAPIPutOneWithContext (db : DBClient) (collName : String)
    (filter putData : BsonM) : Option Error × DBClient :=
  db.issue (.RestfulAPIPutOneWithContext collName filter putData)

/-- Gateway method `RestfulAPIDeleteOneOnDB(ctx, dbName, collName, filter)`. -/
def DBClient.RestfulAPIDeleteOneOnDB (db : DBClient) (dbName collName : String)
    (filter : BsonM) : Option Error × DBClient :=
  db.issue (.RestfulAPIDeleteOneOnDB dbName collName filter)

/-- Gateway method `RestfulAPIDeleteOneWithContext(ctx, collName, filter)`. -/
def DBClient.RestfulAPIDeleteOneWithContext (db : DBClient) (collName : String)
    (filter : BsonM) : Option Error × DBClient :=
  db.issue (.RestfulAPIDeleteOneWithContext collName filter)

/-- Modelled from the spec: `dbadapter.GetSessionRunner` is not among the
sources at hand. Per §4.1 the runner executes the closure handed to it inside a
session and either all of the closure's operations are durably applied or none
are: when the closure returns nil the staged writes are committed, when it
returns an error the session is aborted, the prior state is left unchanged and
that error is returned. Store failures in this model are definitive operation
failures, not transient conflicts, so the closure is executed once. This is the
runner of a session that itself starts and commits; the failures of the session
itself are modelled by `GetSessionRunner.withFaults`, of which this is the case
with no fault. -/
def GetSessionRunner (CommonDBClient : DBClient)
    (fn : DBClient → Option Error × DBClient) : Option Error × DBClient :=
  match fn { CommonDBClient with session := [] } with
  | (some err, sc) => (some err, { sc with session := [] })
  | (none, sc) => (none, { sc with committed := sc.committed ++ sc.session, session := [] })

/-! ## Subscriber helpers -/

/-- Embedding of `subscriberAuthenticationDataCreate(imsi, authSubData)`; the
package variables `factory.WebUIConfig` and `dbadapter.CommonDBClient` are passed
explicitly and the client after the call is returned with the error. -/
def subscriberAuthenticationDataCreate (WebUIConfig : Config) (c : Collections)
    (CommonDBClient : DBClient) (imsi : String) (authSubData : AuthenticationSubscription) :
    Option Error × DBClient :=
  let filter : BsonM := [("ueId", .str imsi)]
  let authDataBsonA := (ToBsonM authSubData.fields).set "ueId" (.str imsi)
  let basicAmData : BsonM := [("ueId", .str imsi)]
  let basicDataBson := ToBsonM basicAmData
  let authDbName := WebUIConfig.Configuration.Mongodb.AuthKeysDbName
  let sessionRunner := GetSessionRunner CommonDBClient
  sessionRunner fun sc =>
    match sc.RestfulAPIPostOnDB authDbName c.authSubsDataColl filter authDataBsonA with
    | (some err, sc) => (some err, sc)
    | (none, sc) =>
      match sc.RestfulAPIPostWithContext c.amDataColl filter basicDataBson with
      | (some err, sc) => (some err, sc)
      | (none, sc) => (none, sc)

/-- Embedding of `subscriberAuthenticationDataUpdate(imsi, authSubData)`. -/
def subscriberAuthenticationDataUpdate (WebUIConfig : Config) (c : Collections)
    (CommonDBClient : DBClient) (imsi : String) (authSubData : AuthenticationSubscription) :
    Option Error × DBClient :=
  let filter : BsonM := [("ueId", .str imsi)]
  let authDataBsonA := (ToBsonM authSubData.fields).set "ueId" (.str imsi)
  let basicAmData : BsonM := [("ueId", .str imsi)]
  let basicDataBson := ToBsonM basicAmData
  let authDbName := WebUIConfig.Configuration.Mongodb.AuthKeysDbName
  let sessionRunner := GetSessionRunner CommonDBClient
  sessionRunner fun sc =>
    match sc.RestfulAPIPutOneOnDB authDbName c.authSubsDataColl filter authDataBsonA with
    | (some err, sc) => (some err, sc)
    | (none, sc) =>
      match sc.RestfulAPIPutOneWithContext c.amDataColl filter basicDataBson with
      | (some err, sc) => (some err, sc)
      | (none, sc) => (none, sc)

/-- Embedding of `subscriberAuthenticationDataDelete(imsi)`. -/
def subscriberAuthenticationDataDelete (WebUIConfig : Config) (c : Collections)
    (CommonDBClient : DBClient) (imsi : String) : Option Error × DBClient :=
  let filter : BsonM := [("ueId", .str imsi)]
  let authDbName := WebUIConfig.Configuration.Mongodb.AuthKeysDbName
  let sessionRunner := GetSessionRunner CommonDBClient
  sessionRunner fun sc =>
    match sc.RestfulAPIDeleteOneOnDB authDbName c.authSubsDataColl filter with
    | (some err, sc) => (some err, sc)
    | (none, sc) =>
      match sc.RestfulAPIDeleteOneWithContext c.amDataColl filter with
      | (some err, sc) => (some err, sc)
      | (none, sc) => (none, sc)

/-- Modelled from the spec: the failures of the session itself, which the
gateway and the runner outside the sources at hand can meet whatever the
closure does. `StartSession` is the error of `StartSession()`, a method of the
gateway that returns an error beside the session (nil when the session
starts); `CommitTransaction` is the error surfaced when the commit is not
achieved, the `TransactionFailed` of §7 (nil when the commit goes through). -/
structure SessionFaults where
  StartSession : Option Error
  CommitTransaction : Option Error
  deriving Repr

/-- Modelled from the spec: `dbadapter.GetSessionRunner` with the failures of the
session itself. A session that cannot be started returns its error before the
closure runs and the client is untouched. Otherwise the closure runs as in
`GetSessionRunner`; when it returns nil and the commit is not achieved, the
error of the commit is returned and, per §4.1, none of the closure's operations
is applied. The retries the spec allows on transient conflicts are not
modelled: the closure is executed once. -/
def GetSessionRunner.withFaults (faults : SessionFaults) (CommonDBClient : DBClient)
    (fn : DBClient → Option Error × DBClient) : Option Error × DBClient :=
  match faults.StartSession with
  | some err => (some err, CommonDBClient)
  | none =>
    match fn { CommonDBClient with session := [] } with
    | (some err, sc) => (some err, { sc with session := [] })
    | (none, sc) =>
      match faults.CommitTransaction with
      | some err => (some err, { sc with session := [] })
      | none =>
        (none, { sc with committed := sc.committed ++ sc.session, session := [] })

/-- Embedding of `subscriberAuthenticationDataDelete(imsi)` over a session runner
that can fail on its own: the same body as `subscriberAuthenticationDataDelete`,
with `dbadapter.GetSessionRunner` taken with its faults. -/
def subscriberAuthenticationDataDelete.withFaults (faults : SessionFaults)
    (WebUIConfig : Config) (c : Collections) (CommonDBClient : DBClient) (imsi : String) :
    Option Error × DBClient :=
  let filter : BsonM := [("ueId", .str imsi)]
  let authDbName := WebUIConfig.Configuration.Mongodb.AuthKeysDbName
  let sessionRunner := GetSessionRunner.withFaults faults CommonDBClient
  sessionRunner fun sc =>
    match sc.RestfulAPIDeleteOneOnDB authDbName c.authSubsDataColl filter with
    | (some err, sc) => (some err, sc)
    | (none, sc) =>
      match sc.RestfulAPIDeleteOneWithContext c.amDataColl filter with
      | (some err, sc) => (some err, sc)
      | (none, sc) => (none, sc)

/-- Embedding of `removeSubscriberEntriesRelatedToDeviceGroups(mcc, mnc, imsi)`:
five deletes inside one session, each one issued only after the previous one
returned nil; the error of the session runner is passed on. -/
def removeSubscriberEntriesRelatedToDeviceGroups (c : Collections)
    (CommonDBClient : DBClient) (mcc mnc imsi : String) : Option Error × DBClient :=
  let filterImsiOnly : BsonM := [("ueId", .str ("imsi-" ++ imsi))]
  let filter : BsonM :=
    [("ueId", .str ("imsi-" ++ imsi)), ("servingPlmnId", .str (mcc ++ mnc))]
  let sessionRunner := GetSessionRunner CommonDBClient
  let result := sessionRunner fun sc =>
    -- AM policy
    match sc.RestfulAPIDeleteOneWithContext c.amPolicyDataColl filterImsiOnly with
    | (some err, sc) => (some err, sc)
    | (none, sc) =>
      -- SM policy
      match sc.RestfulAPIDeleteOneWithContext c.smPolicyDataColl filterImsiOnly with
      | (some err, sc) => (some err, sc)
      | (none, sc) =>
        -- AM data
        match sc.RestfulAPIDeleteOneWithContext c.amDataColl filter with
        | (some err, sc) => (some err, sc)
        | (none, sc) =>
          -- SM data
          match sc.RestfulAPIDeleteOneWithContext c.smDataColl filter with
          | (some err, sc) => (some err, sc)
          | (none, sc) =>
            -- SMF selection
            match sc.RestfulAPIDeleteOneWithContext c.smfSelDataColl filter with
            | (some err, sc) => (some err, sc)
            | (none, sc) => (none, sc)
  match result with
  | (some err, db) => (some err, db)
  | (none, db) => (none, db)

/-- The cleanup table `subscriberCleanupTargets(identifier, servingNetworkQualifier)`
of §4.3, written from the words of the specification and its claims: the
collections to purge with their filters, in order. It is the side the code is
compared with, not a part of the code. -/
def subscriberCleanupTargets (c : Collections) (identifier servingNetworkQualifier : String) :
    List (String × BsonM) :=
  [(c.amPolicyDataColl, [("ueId", .str identifier)]),
   (c.smPolicyDataColl, [("ueId", .str identifier)]),
   (c.amDataColl, [("ueId", .str identifier), ("servingPlmnId", .str servingNetworkQualifier)]),
   (c.smDataColl, [("ueId", .str identifier), ("servingPlmnId", .str servingNetworkQualifier)]),
   (c.smfSelDataColl,
     [("ueId", .str identifier), ("servingPlmnId", .str servingNetworkQualifier)])]

/-- The filter argument of a gateway call. -/
def DBCall.filter : DBCall → BsonM
  | .RestfulAPIPostOnDB _ _ filter _ => filter
  | .RestfulAPIPostWithContext _ filter _ => filter
  | .RestfulAPIPutOneOnDB _ _ filter _ => filter
  | .RestfulAPIPutOneWithContext _ filter _ => filter
  | .RestfulAPIDeleteOneOnDB _ _ filter => filter
  | .RestfulAPIDeleteOneWithContext _ filter => filter

/-- A run of gateway calls inside the open session, each issued only after the
previous one succeeded: the common shape of the session closures, used to
reason about them. -/
def DBClient.issueAll (db : DBClient) : List DBCall → Option Error × DBClient
  | [] => (none, db)
  | call :: rest =>
    match db.issue call with
    | (some err, sc) => (some err, sc)
    | (none, sc) => sc.issueAll rest

/-! ## Device groups of a subscriber -/

/-- `http.StatusOK`. -/
def StatusOK : Nat := 200

/-- `http.StatusBadRequest`. -/
def StatusBadRequest : Nat := 400

/-- `http.StatusInternalServerError`. -/
def StatusInternalServerError : Nat := 500

/-- The functions of the package that `updateSubscriberInDeviceGroups` calls and
that are declared outside the sources at hand, taken as parameters over a store
state `σ`: the lookup `getDeviceGroupByName` and `handleDeviceGroupPost`, which
returns a status code and an error and may change the store. -/
structure DeviceGroupOps (σ : Type) where
  getDeviceGroupByName : σ → String → Option DeviceGroups
  handleDeviceGroupPost : σ → DeviceGroups → Option DeviceGroups → (Nat × Option Error) × σ

/-- Inner loop of `updateSubscriberInDeviceGroups`: the identifiers of the
group other than `imsi`, appended in turn to an empty slice. -/
def updateSubscriberInDeviceGroups.filteredImsis (imsi : String) (Imsis : List String) :
    List String :=
  Imsis.foldl (fun filteredImsis currImsi =>
    if currImsi != imsi then filteredImsis ++ [currImsi] else filteredImsis) []

/-- Loop of `updateSubscriberInDeviceGroups` over the fetched raw device groups.
`Unmarshal` stands for `json.Unmarshal(configmodels.MapToByte(raw), &deviceGroup)`.
Besides the status, the error and the store, the pairs handed to
`handleDeviceGroupPost` so far are returned, oldest first. -/
def updateSubscriberInDeviceGroups.loop {σ : Type} (ops : DeviceGroupOps σ)
    (Unmarshal : BsonM → Option Error × DeviceGroups) (imsi : String) :
    List BsonM → σ → List (DeviceGroups × Option DeviceGroups) →
      (Nat × Option Error) × σ × List (DeviceGroups × Option DeviceGroups)
  | [], store, posted => ((StatusOK, none), store, posted)
  | rawDeviceGroup :: rest, store, posted =>
    match Unmarshal rawDeviceGroup with
    | (some err, _) => ((StatusInternalServerError, some err), store, posted)
    | (none, deviceGroup) =>
      let filteredImsis := updateSubscriberInDeviceGroups.filteredImsis imsi deviceGroup.Imsis
      let deviceGroup := { deviceGroup with Imsis := filteredImsis }
      let prevDevGroup := ops.getDeviceGroupByName store deviceGroup.DeviceGroupName
      match ops.handleDeviceGroupPost store deviceGroup prevDevGroup with
      | ((statusCode, some err), store) =>
        ((statusCode, some err), store, posted ++ [(deviceGroup, prevDevGroup)])
      | ((_, none), store) =>
        updateSubscriberInDeviceGroups.loop ops Unmarshal imsi rest store
          (posted ++ [(deviceGroup, prevDevGroup)])

/-- Embedding of `updateSubscriberInDeviceGroups(imsi)`. `RestfulAPIGetMany` is
the read of the gateway on `devGroupDataColl` with the filter `imsis = imsi`. -/
def updateSubscriberInDeviceGroups {σ : Type} (c : Collections) (ops : DeviceGroupOps σ)
    (RestfulAPIGetMany : String → BsonM → List BsonM × Option Error)
    (Unmarshal : BsonM → Option Error × DeviceGroups) (store : σ) (imsi : String) :
    (Nat × Option Error) × σ × List (DeviceGroups × Option DeviceGroups) :=
  let filterByImsi : BsonM := [("imsis", .str imsi)]
  match RestfulAPIGetMany c.devGroupDataColl filterByImsi with
  | (_, some err) => ((StatusInternalServerError, some err), store, [])
  | (rawDeviceGroups, none) =>
    updateSubscriberInDeviceGroups.loop ops Unmarshal imsi rawDeviceGroups store []

/-! ## Inventory -/

/-- Collection of the radio nodes, `gnbDataColl`. -/
def gnbDataColl : String := "webconsoleData.snapshots.gnbData"

/-- Collection of the user-plane nodes, `upfDataColl`. -/
def upfDataColl : String := "webconsoleData.snapshots.upfData"

/-- The fields of `configmodels.Gnb` the inventory handlers use. -/
structure Gnb where
  Name : String
  Tac : String
  deriving DecidableEq, Repr

/-- The fields of `configmodels.Upf` the inventory handlers use. -/
structure Upf where
  Hostname : String
  Port : String
  deriving DecidableEq, Repr

/-- Modelled from the spec: the message-type constants of `configmodels` are
declared outside the sources at hand, which name only `Inventory`. The entity
kinds are those of §3: device group, network slice, subscriber and inventory
node. -/
inductive MsgType where
  | Device_group
  | Network_slice
  | Sub_data
  | Inventory
  deriving DecidableEq, Repr

/-- Modelled from the spec: the operation constants of `configmodels`, of which
the sources at hand name `Post_op` and `Delete_op`; the operations of §4.4 are
create, update and delete. -/
inductive MsgMethod where
  | Post_op
  | Put_op
  | Delete_op
  deriving DecidableEq, Repr

/-- The fields of `configmodels.ConfigMessage` the inventory handlers set; a
field left out of a composite literal holds its zero value. -/
structure ConfigMessage where
  MsgType : MsgType
  MsgMethod : MsgMethod
  GnbName : String
  UpfHostname : String
  Gnb : Option Gnb
  Upf : Option Upf
  deriving DecidableEq, Repr

/-- The parts of a `gin.Context` request the inventory handlers read: the path
parameters, the `Content-Type` header, and what `ShouldBindJSON` makes of the
body for each target, an error and the struct as the binding left it. -/
structure Context where
  Params : List (String × String)
  ContentType : String
  ShouldBindJSONGnb : Option Error × Gnb
  ShouldBindJSONUpf : Option Error × Upf
  deriving Repr

/-- `c.Params.Get(name)`: the value of the first parameter with that key. -/
def Context.ParamsGet (c : Context) (name : String) : Option String :=
  c.Params.lookup name

/-- `strings.Split(s, ";")[0]`: the text before the first semicolon. -/
def splitHead (s : String) : String :=
  String.mk (s.toList.takeWhile (fun ch => ch != ';'))

/-- Embedding of `handlePostGnb(c)`; the package channel `configChannel` is
passed explicitly as the messages it holds, oldest first, and a send appends. -/
def handlePostGnb (c : Context) (configChannel : List ConfigMessage) :
    Option Error × List ConfigMessage :=
  match c.ParamsGet "gnb-name" with
  | none => (some "post gNB request is missing gnb-name", configChannel)
  | some gnbName =>
    let zeroGnb : Gnb := { Name := "", Tac := "" }
    let bound : Option Error × Gnb :=
      if splitHead c.ContentType = "application/json" then c.ShouldBindJSONGnb
      else (none, zeroGnb)
    match bound with
    | (some err, _) => (some ("failed to create gNB " ++ gnbName ++ ": " ++ err), configChannel)
    | (none, newGnb) =>
      if newGnb.Tac = "" then (some "post gNB request body is missing tac", configChannel)
      else
        let procReq : Gnb := { newGnb with Name := gnbName }
        let msg : ConfigMessage :=
          { MsgType := .Inventory, MsgMethod := .Post_op, GnbName := gnbName,
            UpfHostname := "", Gnb := some procReq, Upf := none }
        (none, configChannel ++ [msg])

/-- Embedding of `handleDeleteGnb(c)`. -/
def handleDeleteGnb (c : Context) (configChannel : List ConfigMessage) :
    Option Error × List ConfigMessage :=
  match c.ParamsGet "gnb-name" with
  | none => (some "delete gNB request is missing gnb-name", configChannel)
  | some gnbName =>
    let msg : ConfigMessage :=
      { MsgType := .Inventory, MsgMethod := .Delete_op, GnbName := gnbName,
        UpfHostname := "", Gnb := none, Upf := none }
    (none, configChannel ++ [msg])

/-- Embedding of `handlePostUpf(c)`. -/
def handlePostUpf (c : Context) (configChannel : List ConfigMessage) :
    Option Error × List ConfigMessage :=
  match c.ParamsGet "upf-hostname" with
  | none => (some "post UPF request is missing upf-hostname", configChannel)
  | some upfHostname =>
    let zeroUpf : Upf := { Hostname := "", Port := "" }
    let bound : Option Error × Upf :=
      if splitHead c.ContentType = "application/json" then c.ShouldBindJSONUpf
      else (none, zeroUpf)
    match bound with
    | (some err, _) =>
      (some ("failed to create UPF " ++ upfHostname ++ ": " ++ err), configChannel)
    | (none, newUpf) =>
      if newUpf.Port = "" then (some "post UPF request body is missing port", configChannel)
      else
        let procReq : Upf := { newUpf with Hostname := upfHostname }
        let msg : ConfigMessage :=
          { MsgType := .Inventory, MsgMethod := .Post_op, GnbName := "",
            UpfHostname := upfHostname, Gnb := none, Upf := some procReq }
        (none, configChannel ++ [msg])

/-- Embedding of `handleDeleteUpf(c)`. -/
def handleDeleteUpf (c : Context) (configChannel : List ConfigMessage) :
    Option Error × List ConfigMessage :=
  match c.ParamsGet "upf-hostname" with
  | none => (some "delete UPF request is missing upf-hostname", configChannel)
  | some upfHostname =>
    let msg : ConfigMessage :=
      { MsgType := .Inventory, MsgMethod := .Delete_op, GnbName := "",
        UpfHostname := upfHostname, Gnb := none, Upf := none }
    (none, configChannel ++ [msg])

/-- What a handler hands to `c.JSON`. -/
inductive Body where
  | gnbs (items : List Gnb)
  | upfs (items : List Upf)
  | H (fields : BsonM)
  deriving Repr

/-- The response side of a `gin.Context`: the header map and the calls of
`c.JSON(code, obj)` made so far, oldest first. -/
structure ResponseWriter where
  Header : List (String × String)
  written : List (Nat × Body)
  deriving Repr

/-- `c.Writer.Header().Set(key, value)`. -/
def ResponseWriter.HeaderSet (w : ResponseWriter) (key value : String) : ResponseWriter :=
  { w with Header := (key, value) :: w.Header.filter (fun entry => entry.1 != key) }

/-- `c.JSON(code, obj)`. -/
def ResponseWriter.JSON (w : ResponseWriter) (code : Nat) (obj : Body) : ResponseWriter :=
  { w with written := w.written ++ [(code, obj)] }

/-- Embedding of `setInventoryCorsHeader(c)`. -/
def setInventoryCorsHeader (w : ResponseWriter) : ResponseWriter :=
  (((w.HeaderSet "Access-Control-Allow-Origin" "*").HeaderSet
      "Access-Control-Allow-Credentials" "true").HeaderSet
      "Access-Control-Allow-Headers" "Content-Type").HeaderSet
      "Access-Control-Allow-Methods" "POST, GET, DELETE"

/-- Embedding of `GetGnbs(c)`: after a failed read the error response is written
and control goes on to the loop and to the final `c.JSON(http.StatusOK, gnbs)`.
`RestfulAPIGetMany` is the read of the gateway and `Unmarshal` stands for
`json.Unmarshal(configmodels.MapToByte(rawGnb), &gnbData)`, whose struct is
appended whether or not it reports an error. -/
def GetGnbs (RestfulAPIGetMany : String → BsonM → List BsonM × Option Error)
    (Unmarshal : BsonM → Option Error × Gnb) (w : ResponseWriter) : ResponseWriter :=
  let w := setInventoryCorsHeader w
  let gnbs : List Gnb := []
  match RestfulAPIGetMany gnbDataColl [] with
  | (rawGnbs, errGetMany) =>
    let w :=
      match errGetMany with
      | some _ => w.JSON StatusInternalServerError (.gnbs gnbs)
      | none => w
    let gnbs := rawGnbs.foldl (fun gnbs rawGnb => gnbs ++ [(Unmarshal rawGnb).2]) gnbs
    w.JSON StatusOK (.gnbs gnbs)

/-- Embedding of `GetUpfs(c)`. -/
def GetUpfs (RestfulAPIGetMany : String → BsonM → List BsonM × Option Error)
    (Unmarshal : BsonM → Option Error × Upf) (w : ResponseWriter) : ResponseWriter :=
  let w := setInventoryCorsHeader w
  let upfs : List Upf := []
  match RestfulAPIGetMany upfDataColl [] with
  | (rawUpfs, errGetMany) =>
    let w :=
      match errGetMany with
      | some _ => w.JSON StatusInternalServerError (.upfs upfs)
      | none => w
    let upfs := rawUpfs.foldl (fun upfs rawUpf => upfs ++ [(Unmarshal rawUpf).2]) upfs
    w.JSON StatusOK (.upfs upfs)

/-! ## Routes -/

/-- The handler functions named in the routes table. -/
inductive HandlerFunc where
  | Index
  | GetDeviceGroups
  | GetDeviceGroupByName
  | DeviceGroupGroupNameDelete
  | DeviceGroupGroupNamePut
  | DeviceGroupGroupNamePost
  | GetNetworkSlices
  | GetNetworkSliceByName
  | NetworkSliceSliceNameDelete
  | NetworkSliceSliceNamePost
  | NetworkSliceSliceNamePut
  | GetGnbs
  | PostGnb
  | PutGnb
  | DeleteGnb
  | GetUpfs
  | PostUpf
  | PutUpf
  | DeleteUpf
  deriving DecidableEq, Repr

/-- `Route`: the information for every URI. -/
structure Route where
  Name : String
  Method : String
  Pattern : String
  HandlerFunc : HandlerFunc
  deriving DecidableEq, Repr

/-- The table `routes` of `routers.go`. -/
def routes : List Route :=
  [ ⟨"Index", "GET", "/", .Index⟩,
    ⟨"GetDeviceGroups", "GET", "/device-group", .GetDeviceGroups⟩,
    ⟨"GetDeviceGroupByName", "GET", "/device-group/:group-name", .GetDeviceGroupByName⟩,
    ⟨"DeviceGroupGroupNameDelete", "DELETE", "/device-group/:group-name",
      .DeviceGroupGroupNameDelete⟩,
    ⟨"DeviceGroupGroupNamePut", "PUT", "/device-group/:group-name", .DeviceGroupGroupNamePut⟩,
    ⟨"DeviceGroupGroupNamePost", "POST", "/device-group/:group-name",
      .DeviceGroupGroupNamePost⟩,
    ⟨"GetNetworkSlices", "GET", "/network-slice", .GetNetworkSlices⟩,
    ⟨"GetNetworkSliceByName", "GET", "/network-slice/:slice-name", .GetNetworkSliceByName⟩,
    ⟨"NetworkSliceSliceNameDelete", "DELETE", "/network-slice/:slice-name",
      .NetworkSliceSliceNameDelete⟩,
    ⟨"NetworkSliceSliceNamePost", "POST", "/network-slice/:slice-name",
      .NetworkSliceSliceNamePost⟩,
    ⟨"NetworkSliceSliceNamePut", "PUT", "/network-slice/:slice-name",
      .NetworkSliceSliceNamePut⟩,
    ⟨"GetGnbs", "GET", "/inventory/gnb", .GetGnbs⟩,
    ⟨"PostGnb", "POST", "/inventory/gnb", .PostGnb⟩,
    ⟨"PutGnb", "PUT", "/inventory/gnb/:gnb-name", .PutGnb⟩,
    ⟨"DeleteGnb", "DELETE", "/inventory/gnb/:gnb-name", .DeleteGnb⟩,
    ⟨"GetUpfs", "GET", "/inventory/upf", .GetUpfs⟩,
    ⟨"PostUpf", "POST", "/inventory/upf", .PostUpf⟩,
    ⟨"PutUpf", "PUT", "/inventory/upf/:upf-hostname", .PutUpf⟩,
    ⟨"DeleteUpf", "DELETE", "/inventory/upf/:upf-hostname", .DeleteUpf⟩ ]

/-- The segments of a path, cut at every slash. -/
def splitPath : List Char → List (List Char)
  | [] => [[]]
  | ch :: rest =>
    if ch = '/' then [] :: splitPath rest
    else
      match splitPath rest with
      | [] => [[ch]]
      | segment :: segments => (ch :: segment) :: segments

/-- The parameters a URI pattern declares for the router of gin: one for each
segment that starts with a colon or a star, named by the rest of the segment. -/
def pathParams (pattern : String) : List String :=
  (splitPath pattern.toList).filterMap fun segment =>
    match segment with
    | ':' :: name => some (String.mk name)
    | '*' :: name => some (String.mk name)
    | _ => none

/-- The `Params` of a request that the router matched against `pattern`: the
declared parameters, each with the text found at its place. -/
def matchedParams (pattern : String) (values : List String) : List (String × String) :=
  (pathParams pattern).zip values

/-! ## Fixtures of the test file -/

/-- The recording client `txMockDB` of `subscriber_helpers_test.go`: each kind of
operation fails with the error configured for it, if any, and nothing has been
received yet. -/
def txMockDB (postOnDBErr postWithCtxErr putOneOnDBErr putOneWithCtxErr deleteOnDBErr
    deleteWithCtxErr : Option Error) : DBClient :=
  { failure := fun _ call =>
      match call with
      | .RestfulAPIPostOnDB _ _ _ _ => postOnDBErr
      | .RestfulAPIPostWithContext _ _ _ => postWithCtxErr
      | .RestfulAPIPutOneOnDB _ _ _ _ => putOneOnDBErr
      | .RestfulAPIPutOneWithContext _ _ _ => putOneWithCtxErr
      | .RestfulAPIDeleteOneOnDB _ _ _ => deleteOnDBErr
      | .RestfulAPIDeleteOneWithContext _ _ => deleteWithCtxErr
    log := []
    session := []
    committed := [] }

/-- The configuration installed by `setupTestFactory`, with `testAuthDbName`. -/
def setupTestFactory : Config :=
  { Configuration :=
      { Mongodb :=
          { Name := "", Url := "", AuthKeysDbName := "auth_test_db", AuthUrl := "",
            WebuiDBName := "", WebuiDBUrl := "" } } }

/-- Collection names for the examples. -/
def testCollections : Collections :=
  { authSubsDataColl := "subscriptionData.authenticationData.authenticationSubscription"
    amDataColl := "subscriptionData.provisionedData.amData"
    amPolicyDataColl := "policyData.ues.amData"
    smPolicyDataColl := "policyData.ues.smData"
    smDataColl := "subscriptionData.provisionedData.smData"
    smfSelDataColl := "subscriptionData.provisionedData.smfSelectionSubscriptionData"
    devGroupDataColl := "webconsoleData.snapshots.devGroupData" }

/-- The subscription built by `authenticationSubscription()` in the tests. -/
def authenticationSubscription : AuthenticationSubscription :=
  { fields :=
      [("authenticationManagementField", .str "8000"),
       ("authenticationMethod", .str "5G_AKA"),
       ("milenage",
         .doc [("op", .doc [("encryptionAlgorithm", .num 0), ("encryptionKey", .num 0)])]),
       ("opc",
         .doc [("encryptionAlgorithm", .num 0), ("encryptionKey", .num 0),
               ("opcValue", .str "8e27b6af0e692e750f32667a3b14605d")]),
       ("permanentKey",
         .doc [("encryptionAlgorithm", .num 0), ("encryptionKey", .num 0),
               ("permanentKeyValue", .str "8baf473f2f8fd09487cccbd7097c6862")]),
       ("sequenceNumber", .str "16f3b3f70fc2")] }

/-- A client in the manner of `txMockDB` whose call number `k` (counting from
zero) fails with `err` and whose other calls succeed. -/
def failingAt (k : Nat) (err : Error) : DBClient :=
  { failure := fun log _ => if log.length = k then some err else none
    log := []
    session := []
    committed := [] }

/-! ## Membership delta -/

theorem scan_foldl_true (pimsi : String) (imsis : List String) :
    imsis.foldl (fun found imsi => if pimsi = imsi then true else found) true = true := by
  induction imsis with
  | nil => rfl
  | cons a t ih =>
    rw [List.foldl_cons]
    have h : (if pimsi = a then true else true) = true := by split <;> rfl
    rw [h]
    exact ih

theorem scan_eq_true_iff (pimsi : String) (imsis : List String) :
    getDeletedImsisList.scan pimsi imsis = true ↔ pimsi ∈ imsis := by
  unfold getDeletedImsisList.scan
  induction imsis with
  | nil => simp
  | cons a t ih =>
    rw [List.foldl_cons, List.mem_cons]
    by_cases h : pimsi = a
    · rw [if_pos h, scan_foldl_true]
      exact ⟨fun _ => Or.inl h, fun _ => rfl⟩
    · rw [if_neg h, ih]
      exact ⟨fun m => Or.inr m, fun m => m.resolve_left h⟩

theorem scan_eq_false_iff (pimsi : String) (imsis : List String) :
    getDeletedImsisList.scan pimsi imsis = false ↔ pimsi ∉ imsis := by
  rw [← scan_eq_true_iff]
  cases getDeletedImsisList.scan pimsi imsis <;> simp

theorem delta_foldl_eq (news : List String) (olds acc : List String) :
    olds.foldl
        (fun dimsis pimsi =>
          if !(getDeletedImsisList.scan pimsi news) then dimsis ++ [pimsi] else dimsis)
        acc
      = acc ++ olds.filter (fun p => decide (p ∉ news)) := by
  induction olds generalizing acc with
  | nil => simp
  | cons a t ih =>
    rw [List.foldl_cons, ih]
    by_cases h : a ∈ news
    · have hs : getDeletedImsisList.scan a news = true := (scan_eq_true_iff a news).2 h
      have hf : List.filter (fun p => decide (p ∉ news)) (a :: t)
          = List.filter (fun p => decide (p ∉ news)) t := by
        apply List.filter_cons_of_neg
        simpa using h
      rw [hs, hf]
      rfl
    · have hs : getDeletedImsisList.scan a news = false := (scan_eq_false_iff a news).2 h
      have hf : List.filter (fun p => decide (p ∉ news)) (a :: t)
          = a :: List.filter (fun p => decide (p ∉ news)) t := by
        apply List.filter_cons_of_pos
        simpa using h
      rw [hs, hf]
      simp

/-! ## Documents -/

theorem BsonM.get_set_self (m : BsonM) (key : String) (value : Any) :
    (m.set key value).get key = some value := by
  simp [BsonM.get, BsonM.set, List.lookup_cons]

theorem BsonM.lookup_filter_ne (m : BsonM) (key other : String) (h : other ≠ key) :
    (m.filter (fun entry => entry.1 != key)).lookup other = m.lookup other := by
  induction m with
  | nil => rfl
  | cons e t ih =>
    obtain ⟨k, v⟩ := e
    by_cases hk : k = key
    · have hne : (other == k) = false := by
        rw [hk]
        exact beq_false_of_ne h
      have hf : List.filter (fun entry => entry.1 != key) ((k, v) :: t)
          = List.filter (fun entry => entry.1 != key) t := by
        apply List.filter_cons_of_neg
        simp [hk]
      rw [hf, ih, List.lookup_cons, hne]
    · have hf : List.filter (fun entry => entry.1 != key) ((k, v) :: t)
          = (k, v) :: List.filter (fun entry => entry.1 != key) t := by
        apply List.filter_cons_of_pos
        simp [hk]
      rw [hf, List.lookup_cons, List.lookup_cons, ih]

theorem BsonM.get_set_other (m : BsonM) (key other : String) (value : Any)
    (h : other ≠ key) : (m.set key value).get other = m.get other := by
  unfold BsonM.get BsonM.set
  rw [List.lookup_cons, beq_false_of_ne h]
  exact BsonM.lookup_filter_ne m key other h

/-! ## A session of two writes -/

/-- The shape shared by the closures of the subscriber helpers: a first call,
and a second one only after the first succeeded. -/
theorem session_first_fails (db : DBClient) (c1 c2 : DBCall) (e : Error)
    (h1 : db.failure db.log c1 = some e) :
    GetSessionRunner db (fun sc =>
        match sc.issue c1 with
        | (some err, sc) => (some err, sc)
        | (none, sc) =>
          match sc.issue c2 with
          | (some err, sc) => (some err, sc)
          | (none, sc) => (none, sc))
      = (some e, { db with log := db.log ++ [(c1, some e)], session := [] }) := by
  simp only [GetSessionRunner, DBClient.issue, h1]

theorem session_second_fails (db : DBClient) (c1 c2 : DBCall) (e : Error)
    (h1 : db.failure db.log c1 = none)
    (h2 : db.failure (db.log ++ [(c1, none)]) c2 = some e) :
    GetSessionRunner db (fun sc =>
        match sc.issue c1 with
        | (some err, sc) => (some err, sc)
        | (none, sc) =>
          match sc.issue c2 with
          | (some err, sc) => (some err, sc)
          | (none, sc) => (none, sc))
      = (some e, { db with log := db.log ++ [(c1, none), (c2, some e)], session := [] }) := by
  simp only [GetSessionRunner, DBClient.issue, h1, h2, List.append_assoc, List.singleton_append]

theorem session_both_succeed (db : DBClient) (c1 c2 : DBCall)
    (h1 : db.failure db.log c1 = none)
    (h2 : db.failure (db.log ++ [(c1, none)]) c2 = none) :
    GetSessionRunner db (fun sc =>
        match sc.issue c1 with
        | (some err, sc) => (some err, sc)
        | (none, sc) =>
          match sc.issue c2 with
          | (some err, sc) => (some err, sc)
          | (none, sc) => (none, sc))
      = (none, { db with log := db.log ++ [(c1, none), (c2, none)], session := [],
                         committed := db.committed ++ [c1, c2] }) := by
  simp only [GetSessionRunner, DBClient.issue, h1, h2, List.append_assoc, List.singleton_append,
    List.nil_append]

/-! ## Membership delta: the claims -/

/-- C1: with both groups present, `getDeletedImsisList` is the old membership
with exactly the entries kept that do not occur in the new membership, in the
old order and multiplicity; so an identifier is in the result if and only if it
is in the old membership and not in the new one. -/
theorem getDeletedImsisList_both (group prevGroup : DeviceGroups) :
    getDeletedImsisList (some group) (some prevGroup)
        = prevGroup.Imsis.filter (fun p => decide (p ∉ group.Imsis))
      ∧ ∀ x, x ∈ getDeletedImsisList (some group) (some prevGroup)
          ↔ (x ∈ prevGroup.Imsis ∧ x ∉ group.Imsis) := by
  have h : getDeletedImsisList (some group) (some prevGroup)
      = prevGroup.Imsis.filter (fun p => decide (p ∉ group.Imsis)) := by
    simp only [getDeletedImsisList]
    rw [delta_foldl_eq]
    simp
  refine ⟨h, ?_⟩
  intro x
  rw [h]
  simp [List.mem_filter]

/-- C2: with the new group absent (deletion), `getDeletedImsisList` returns the
previous group's identifiers, the same list. -/
theorem getDeletedImsisList_deleted (prevGroup : DeviceGroups) :
    getDeletedImsisList none (some prevGroup) = prevGroup.Imsis := rfl

/-- C3: with the previous group absent, `getDeletedImsisList` returns the empty
list whatever the new group is, absent or not. -/
theorem getDeletedImsisList_no_previous (group : Option DeviceGroups) :
    getDeletedImsisList group none = [] := rfl


/-! ## The three outcomes of each helper -/

theorem subscriberAuthenticationDataCreate_first_fails (WebUIConfig : Config) (c : Collections)
    (db : DBClient) (imsi : String) (authSubData : AuthenticationSubscription) (e : Error)
    (h1 : db.failure db.log
        (DBCall.RestfulAPIPostOnDB WebUIConfig.Configuration.Mongodb.AuthKeysDbName
          c.authSubsDataColl [("ueId", .str imsi)]
          (BsonM.set (ToBsonM authSubData.fields) "ueId" (.str imsi))) = some e) :
    subscriberAuthenticationDataCreate WebUIConfig c db imsi authSubData
      = (some e,
         { db with
            log := db.log ++ [((DBCall.RestfulAPIPostOnDB WebUIConfig.Configuration.Mongodb.AuthKeysDbName
          c.authSubsDataColl [("ueId", .str imsi)]
          (BsonM.set (ToBsonM authSubData.fields) "ueId" (.str imsi))), some e)],
            session := [] }) := by
  unfold subscriberAuthenticationDataCreate
  simp only [DBClient.RestfulAPIPostOnDB, DBClient.RestfulAPIPostWithContext, ToBsonM] at h1 ⊢
  exact session_first_fails db _ _ e h1

theorem subscriberAuthenticationDataCreate_second_fails (WebUIConfig : Config) (c : Collections)
    (db : DBClient) (imsi : String) (authSubData : AuthenticationSubscription) (e : Error)
    (h1 : db.failure db.log
        (DBCall.RestfulAPIPostOnDB WebUIConfig.Configuration.Mongodb.AuthKeysDbName
          c.authSubsDataColl [("ueId", .str imsi)]
          (BsonM.set (ToBsonM authSubData.fields) "ueId" (.str imsi))) = none)
    (h2 : db.failure
        (db.log ++ [((DBCall.RestfulAPIPostOnDB WebUIConfig.Configuration.Mongodb.AuthKeysDbName
          c.authSubsDataColl [("ueId", .str imsi)]
          (BsonM.set (ToBsonM authSubData.fields) "ueId" (.str imsi))), none)])
        (DBCall.RestfulAPIPostWithContext c.amDataColl [("ueId", .str imsi)]
          [("ueId", .str imsi)]) = some e) :
    subscriberAuthenticationDataCreate WebUIConfig c db imsi authSubData
      = (some e,
         { db with
            log := db.log ++
              [((DBCall.RestfulAPIPostOnDB WebUIConfig.Configuration.Mongodb.AuthKeysDbName
          c.authSubsDataColl [("ueId", .str imsi)]
          (BsonM.set (ToBsonM authSubData.fields) "ueId" (.str imsi))), none),
               ((DBCall.RestfulAPIPostWithContext c.amDataColl [("ueId", .str imsi)]
          [("ueId", .str imsi)]), some e)],
            session := [] }) := by
  unfold subscriberAuthenticationDataCreate
  simp only [DBClient.RestfulAPIPostOnDB, DBClient.RestfulAPIPostWithContext, ToBsonM] at h1 h2 ⊢
  exact session_second_fails db _ _ e h1 h2

theorem subscriberAuthenticationDataCreate_both_succeed (WebUIConfig : Config) (c : Collections)
    (db : DBClient) (imsi : String) (authSubData : AuthenticationSubscription)
    (h1 : db.failure db.log
        (DBCall.RestfulAPIPostOnDB WebUIConfig.Configuration.Mongodb.AuthKeysDbName
          c.authSubsDataColl [("ueId", .str imsi)]
          (BsonM.set (ToBsonM authSubData.fields) "ueId" (.str imsi))) = none)
    (h2 : db.failure
        (db.log ++ [((DBCall.RestfulAPIPostOnDB WebUIConfig.Configuration.Mongodb.AuthKeysDbName
          c.authSubsDataColl [("ueId", .str imsi)]
          (BsonM.set (ToBsonM authSubData.fields) "ueId" (.str imsi))), none)])
        (DBCall.RestfulAPIPostWithContext c.amDataColl [("ueId", .str imsi)]
          [("ueId", .str imsi)]) = none) :
    subscriberAuthenticationDataCreate WebUIConfig c db imsi authSubData
      = (none,
         { db with
            log := db.log ++
              [((DBCall.RestfulAPIPostOnDB WebUIConfig.Configuration.Mongodb.AuthKeysDbName
          c.authSubsDataColl [("ueId", .str imsi)]
          (BsonM.set (ToBsonM authSubData.fields) "ueId" (.str imsi))), none),
               ((DBCall.RestfulAPIPostWithContext c.amDataColl [("ueId", .str imsi)]
          [("ueId", .str imsi)]), none)],
            session := [],
            committed := db.committed ++
              [(DBCall.RestfulAPIPostOnDB WebUIConfig.Configuration.Mongodb.AuthKeysDbName
          c.authSubsDataColl [("ueId", .str imsi)]
          (BsonM.set (ToBsonM authSubData.fields) "ueId" (.str imsi))),
               (DBCall.RestfulAPIPostWithContext c.amDataColl [("ueId", .str imsi)]
          [("ueId", .str imsi)])] }) := by
  unfold subscriberAuthenticationDataCreate
  simp only [DBClient.RestfulAPIPostOnDB, DBClient.RestfulAPIPostWithContext, ToBsonM] at h1 h2 ⊢
  exact session_both_succeed db _ _ h1 h2

theorem subscriberAuthenticationDataUpdate_first_fails (WebUIConfig : Config) (c : Collections)
    (db : DBClient) (imsi : String) (authSubData : AuthenticationSubscription) (e : Error)
    (h1 : db.failure db.log
        (DBCall.RestfulAPIPutOneOnDB WebUIConfig.Configuration.Mongodb.AuthKeysDbName
          c.authSubsDataColl [("ueId", .str imsi)]
          (BsonM.set (ToBsonM authSubData.fields) "ueId" (.str imsi))) = some e) :
    subscriberAuthenticationDataUpdate WebUIConfig c db imsi authSubData
      = (some e,
         { db with
            log := db.log ++ [((DBCall.RestfulAPIPutOneOnDB WebUIConfig.Configuration.Mongodb.AuthKeysDbName
          c.authSubsDataColl [("ueId", .str imsi)]
          (BsonM.set (ToBsonM authSubData.fields) "ueId" (.str imsi))), some e)],
            session := [] }) := by
  unfold subscriberAuthenticationDataUpdate
  simp only [DBClient.RestfulAPIPutOneOnDB, DBClient.RestfulAPIPutOneWithContext, ToBsonM] at h1 ⊢
  exact session_first_fails db _ _ e h1

theorem subscriberAuthenticationDataUpdate_second_fails (WebUIConfig : Config) (c : Collections)
    (db : DBClient) (imsi : String) (authSubData : AuthenticationSubscription) (e : Error)
    (h1 : db.failure db.log
        (DBCall.RestfulAPIPutOneOnDB WebUIConfig.Configuration.Mongodb.AuthKeysDbName
          c.authSubsDataColl [("ueId", .str imsi)]
          (BsonM.set (ToBsonM authSubData.fields) "ueId" (.str imsi))) = none)
    (h2 : db.failure
        (db.log ++ [((DBCall.RestfulAPIPutOneOnDB WebUIConfig.Configuration.Mongodb.AuthKeysDbName
          c.authSubsDataColl [("ueId", .str imsi)]
          (BsonM.set (ToBsonM authSubData.fields) "ueId" (.str imsi))), none)])
        (DBCall.RestfulAPIPutOneWithContext c.amDataColl [("ueId", .str imsi)]
          [("ueId", .str imsi)]) = some e) :
    subscriberAuthenticationDataUpdate WebUIConfig c db imsi authSubData
      = (some e,
         { db with
            log := db.log ++
              [((DBCall.RestfulAPIPutOneOnDB WebUIConfig.Configuration.Mongodb.AuthKeysDbName
          c.authSubsDataColl [("ueId", .str imsi)]
          (BsonM.set (ToBsonM authSubData.fields) "ueId" (.str imsi))), none),
               ((DBCall.RestfulAPIPutOneWithContext c.amDataColl [("ueId", .str imsi)]
          [("ueId", .str imsi)]), some e)],
            session := [] }) := by
  unfold subscriberAuthenticationDataUpdate
  simp only [DBClient.RestfulAPIPutOneOnDB, DBClient.RestfulAPIPutOneWithContext, ToBsonM] at h1 h2 ⊢
  exact session_second_fails db _ _ e h1 h2

theorem subscriberAuthenticationDataUpdate_both_succeed (WebUIConfig : Config) (c : Collections)
    (db : DBClient) (imsi : String) (authSubData : AuthenticationSubscription)
    (h1 : db.failure db.log
        (DBCall.RestfulAPIPutOneOnDB WebUIConfig.Configuration.Mongodb.AuthKeysDbName
          c.authSubsDataColl [("ueId", .str imsi)]
          (BsonM.set (ToBsonM authSubData.fields) "ueId" (.str imsi))) = none)
    (h2 : db.failure
        (db.log ++ [((DBCall.RestfulAPIPutOneOnDB WebUIConfig.Configuration.Mongodb.AuthKeysDbName
          c.authSubsDataColl [("ueId", .str imsi)]
          (BsonM.set (ToBsonM authSubData.fields) "ueId" (.str imsi))), none)])
        (DBCall.RestfulAPIPutOneWithContext c.amDataColl [("ueId", .str imsi)]
          [("ueId", .str imsi)]) = none) :
    subscriberAuthenticationDataUpdate WebUIConfig c db imsi authSubData
      = (none,
         { db with
            log := db.log ++
              [((DBCall.RestfulAPIPutOneOnDB WebUIConfig.Configuration.Mongodb.AuthKeysDbName
          c.authSubsDataColl [("ueId", .str imsi)]
          (BsonM.set (ToBsonM authSubData.fields) "ueId" (.str imsi))), none),
               ((DBCall.RestfulAPIPutOneWithContext c.amDataColl [("ueId", .str imsi)]
          [("ueId", .str imsi)]), none)],
            session := [],
            committed := db.committed ++
              [(DBCall.RestfulAPIPutOneOnDB WebUIConfig.Configuration.Mongodb.AuthKeysDbName
          c.authSubsDataColl [("ueId", .str imsi)]
          (BsonM.set (ToBsonM authSubData.fields) "ueId" (.str imsi))),
               (DBCall.RestfulAPIPutOneWithContext c.amDataColl [("ueId", .str imsi)]
          [("ueId", .str imsi)])] }) := by
  unfold subscriberAuthenticationDataUpdate
  simp only [DBClient.RestfulAPIPutOneOnDB, DBClient.RestfulAPIPutOneWithContext, ToBsonM] at h1 h2 ⊢
  exact session_both_succeed db _ _ h1 h2

theorem subscriberAuthenticationDataDelete_first_fails (WebUIConfig : Config) (c : Collections)
    (db : DBClient) (imsi : String) (e : Error)
    (h1 : db.failure db.log
        (DBCall.RestfulAPIDeleteOneOnDB WebUIConfig.Configuration.Mongodb.AuthKeysDbName
          c.authSubsDataColl [("ueId", .str imsi)]) = some e) :
    subscriberAuthenticationDataDelete WebUIConfig c db imsi
      = (some e,
         { db with
            log := db.log ++ [((DBCall.RestfulAPIDeleteOneOnDB WebUIConfig.Configuration.Mongodb.AuthKeysDbName
          c.authSubsDataColl [("ueId", .str imsi)]), some e)],
            session := [] }) := by
  unfold subscriberAuthenticationDataDelete
  simp only [DBClient.RestfulAPIDeleteOneOnDB, DBClient.RestfulAPIDeleteOneWithContext, ToBsonM] at h1 ⊢
  exact session_first_fails db _ _ e h1

theorem subscriberAuthenticationDataDelete_second_fails (WebUIConfig : Config) (c : Collections)
    (db : DBClient) (imsi : String) (e : Error)
    (h1 : db.failure db.log
        (DBCall.RestfulAPIDeleteOneOnDB WebUIConfig.Configuration.Mongodb.AuthKeysDbName
          c.authSubsDataColl [("ueId", .str imsi)]) = none)
    (h2 : db.failure
        (db.log ++ [((DBCall.RestfulAPIDeleteOneOnDB WebUIConfig.Configuration.Mongodb.AuthKeysDbName
          c.authSubsDataColl [("ueId", .str imsi)]), none)])
        (DBCall.RestfulAPIDeleteOneWithContext c.amDataColl [("ueId", .str imsi)]) = some e) :
    subscriberAuthenticationDataDelete WebUIConfig c db imsi
      = (some e,
         { db with
            log := db.log ++
              [((DBCall.RestfulAPIDeleteOneOnDB WebUIConfig.Configuration.Mongodb.AuthKeysDbName
          c.authSubsDataColl [("ueId", .str imsi)]), none),
               ((DBCall.RestfulAPIDeleteOneWithContext c.amDataColl [("ueId", .str imsi)]), some e)],
            session := [] }) := by
  unfold subscriberAuthenticationDataDelete
  simp only [DBClient.RestfulAPIDeleteOneOnDB, DBClient.RestfulAPIDeleteOneWithContext, ToBsonM] at h1 h2 ⊢
  exact session_second_fails db _ _ e h1 h2

theorem subscriberAuthenticationDataDelete_both_succeed (WebUIConfig : Config) (c : Collections)
    (db : DBClient) (imsi : String)
    (h1 : db.failure db.log
        (DBCall.RestfulAPIDeleteOneOnDB WebUIConfig.Configuration.Mongodb.AuthKeysDbName
          c.authSubsDataColl [("ueId", .str imsi)]) = none)
    (h2 : db.failure
        (db.log ++ [((DBCall.RestfulAPIDeleteOneOnDB WebUIConfig.Configuration.Mongodb.AuthKeysDbName
          c.authSubsDataColl [("ueId", .str imsi)]), none)])
        (DBCall.RestfulAPIDeleteOneWithContext c.amDataColl [("ueId", .str imsi)]) = none) :
    subscriberAuthenticationDataDelete WebUIConfig c db imsi
      = (none,
         { db with
            log := db.log ++
              [((DBCall.RestfulAPIDeleteOneOnDB WebUIConfig.Configuration.Mongodb.AuthKeysDbName
          c.authSubsDataColl [("ueId", .str imsi)]), none),
               ((DBCall.RestfulAPIDeleteOneWithContext c.amDataColl [("ueId", .str imsi)]), none)],
            session := [],
            committed := db.committed ++
              [(DBCall.RestfulAPIDeleteOneOnDB WebUIConfig.Configuration.Mongodb.AuthKeysDbName
          c.authSubsDataColl [("ueId", .str imsi)]),
               (DBCall.RestfulAPIDeleteOneWithContext c.amDataColl [("ueId", .str imsi)])] }) := by
  unfold subscriberAuthenticationDataDelete
  simp only [DBClient.RestfulAPIDeleteOneOnDB, DBClient.RestfulAPIDeleteOneWithContext, ToBsonM] at h1 h2 ⊢
  exact session_both_succeed db _ _ h1 h2

/-! ## Subscriber creation -/

/-- C4: after `subscriberAuthenticationDataCreate`, over the commit-or-abort
session runner, either no error is returned and both the authentication record
and the amData record have been written, or an error is returned and neither
has; no write stays staged; and a failure of the second write leaves the
committed store as it was, with no authentication record behind. -/
theorem subscriberAuthenticationDataCreate_atomic (WebUIConfig : Config) (c : Collections)
    (db : DBClient) (imsi : String) (authSubData : AuthenticationSubscription) :
    (((subscriberAuthenticationDataCreate WebUIConfig c db imsi authSubData).1 = none
        ∧ (subscriberAuthenticationDataCreate WebUIConfig c db imsi authSubData).2.committed
          = db.committed ++
            [DBCall.RestfulAPIPostOnDB WebUIConfig.Configuration.Mongodb.AuthKeysDbName
                c.authSubsDataColl [("ueId", .str imsi)]
                (BsonM.set (ToBsonM authSubData.fields) "ueId" (.str imsi)),
             DBCall.RestfulAPIPostWithContext c.amDataColl [("ueId", .str imsi)]
                [("ueId", .str imsi)]])
      ∨ ((subscriberAuthenticationDataCreate WebUIConfig c db imsi authSubData).1 ≠ none
        ∧ (subscriberAuthenticationDataCreate WebUIConfig c db imsi authSubData).2.committed
          = db.committed))
    ∧ (subscriberAuthenticationDataCreate WebUIConfig c db imsi authSubData).2.session = []
    ∧ ∀ e : Error,
        db.failure db.log
            (DBCall.RestfulAPIPostOnDB WebUIConfig.Configuration.Mongodb.AuthKeysDbName
              c.authSubsDataColl [("ueId", .str imsi)]
              (BsonM.set (ToBsonM authSubData.fields) "ueId" (.str imsi))) = none →
        db.failure
            (db.log ++
              [(DBCall.RestfulAPIPostOnDB WebUIConfig.Configuration.Mongodb.AuthKeysDbName
                  c.authSubsDataColl [("ueId", .str imsi)]
                  (BsonM.set (ToBsonM authSubData.fields) "ueId" (.str imsi)), none)])
            (DBCall.RestfulAPIPostWithContext c.amDataColl [("ueId", .str imsi)]
              [("ueId", .str imsi)]) = some e →
        (subscriberAuthenticationDataCreate WebUIConfig c db imsi authSubData).1 = some e
          ∧ (subscriberAuthenticationDataCreate WebUIConfig c db imsi authSubData).2.committed
            = db.committed := by
  unfold subscriberAuthenticationDataCreate
  simp only [DBClient.RestfulAPIPostOnDB, DBClient.RestfulAPIPostWithContext, ToBsonM]
  cases h1 : db.failure db.log
      (DBCall.RestfulAPIPostOnDB WebUIConfig.Configuration.Mongodb.AuthKeysDbName
        c.authSubsDataColl [("ueId", .str imsi)]
        (BsonM.set authSubData.fields "ueId" (.str imsi))) with
  | some e1 =>
    rw [session_first_fails db _ _ e1 h1]
    simp
  | none =>
    cases h2 : db.failure
        (db.log ++
          [(DBCall.RestfulAPIPostOnDB WebUIConfig.Configuration.Mongodb.AuthKeysDbName
              c.authSubsDataColl [("ueId", .str imsi)]
              (BsonM.set authSubData.fields "ueId" (.str imsi)), none)])
        (DBCall.RestfulAPIPostWithContext c.amDataColl [("ueId", .str imsi)]
          [("ueId", .str imsi)]) with
    | some e2 =>
      rw [session_second_fails db _ _ e2 h1 h2]
      simp
    | none =>
      rw [session_both_succeed db _ _ h1 h2]
      simp

/-- Witness of C4 on the test fixture whose amData post fails: the helper
returns that error and nothing is committed. -/
theorem subscriberAuthenticationDataCreate_atomic_witness :
    (subscriberAuthenticationDataCreate setupTestFactory testCollections
        (txMockDB none (some "common db failure") none none none none) "imsi-1"
        authenticationSubscription).1 = some "common db failure"
      ∧ (subscriberAuthenticationDataCreate setupTestFactory testCollections
        (txMockDB none (some "common db failure") none none none none) "imsi-1"
        authenticationSubscription).2.committed = [] :=
  (subscriberAuthenticationDataCreate_atomic setupTestFactory testCollections
    (txMockDB none (some "common db failure") none none none none) "imsi-1"
    authenticationSubscription).2.2 "common db failure" rfl rfl

/-- C5: when neither post fails, `subscriberAuthenticationDataCreate` returns no
error and the client receives exactly two calls, in this order: the post on the
configured auth database and `authSubsDataColl` with filter `ueId = imsi` and
the authentication data carrying `ueId = imsi` (its other entries untouched),
then the post on `amDataColl` with the same filter and a document whose `ueId`
is `imsi`. -/
theorem subscriberAuthenticationDataCreate_success (WebUIConfig : Config) (c : Collections)
    (db : DBClient) (imsi : String) (authSubData : AuthenticationSubscription)
    (h1 : db.failure db.log
          (DBCall.RestfulAPIPostOnDB WebUIConfig.Configuration.Mongodb.AuthKeysDbName
            c.authSubsDataColl [("ueId", .str imsi)]
            (BsonM.set (ToBsonM authSubData.fields) "ueId" (.str imsi))) = none)
    (h2 : db.failure
          (db.log ++ [((DBCall.RestfulAPIPostOnDB WebUIConfig.Configuration.Mongodb.AuthKeysDbName
            c.authSubsDataColl [("ueId", .str imsi)]
            (BsonM.set (ToBsonM authSubData.fields) "ueId" (.str imsi))), none)])
          (DBCall.RestfulAPIPostWithContext c.amDataColl [("ueId", .str imsi)]
            [("ueId", .str imsi)]) = none) :
    (subscriberAuthenticationDataCreate WebUIConfig c db imsi authSubData).1 = none
      ∧ (subscriberAuthenticationDataCreate WebUIConfig c db imsi authSubData).2.log
        = db.log ++
          [((DBCall.RestfulAPIPostOnDB WebUIConfig.Configuration.Mongodb.AuthKeysDbName
            c.authSubsDataColl [("ueId", .str imsi)]
            (BsonM.set (ToBsonM authSubData.fields) "ueId" (.str imsi))), none),
           ((DBCall.RestfulAPIPostWithContext c.amDataColl [("ueId", .str imsi)]
            [("ueId", .str imsi)]), none)]
      ∧ (BsonM.set (ToBsonM authSubData.fields) "ueId" (.str imsi)).get "ueId"
          = some (.str imsi)
      ∧ (∀ key : String, key ≠ "ueId" →
          (BsonM.set (ToBsonM authSubData.fields) "ueId" (.str imsi)).get key
            = BsonM.get authSubData.fields key)
      ∧ BsonM.get [("ueId", .str imsi)] "ueId" = some (.str imsi) := by
  rw [subscriberAuthenticationDataCreate_both_succeed WebUIConfig c db imsi authSubData h1 h2]
  refine ⟨rfl, rfl, BsonM.get_set_self _ _ _, ?_, ?_⟩
  · intro key hkey
    exact BsonM.get_set_other _ _ _ _ hkey
  · simp [BsonM.get, List.lookup_cons]

/-- Witness of C5 on the test fixture `TestSubscriberAuthenticationDataCreate_Success`. -/
theorem subscriberAuthenticationDataCreate_success_witness :
    (subscriberAuthenticationDataCreate setupTestFactory testCollections
        (txMockDB none none none none none none) "imsi-1" authenticationSubscription).1 = none
      ∧ (subscriberAuthenticationDataCreate setupTestFactory testCollections
        (txMockDB none none none none none none) "imsi-1" authenticationSubscription).2.log
        = [(DBCall.RestfulAPIPostOnDB "auth_test_db"
              "subscriptionData.authenticationData.authenticationSubscription"
              [("ueId", .str "imsi-1")]
              (BsonM.set authenticationSubscription.fields "ueId" (.str "imsi-1")), none),
           (DBCall.RestfulAPIPostWithContext "subscriptionData.provisionedData.amData"
              [("ueId", .str "imsi-1")] [("ueId", .str "imsi-1")], none)] :=
  ⟨(subscriberAuthenticationDataCreate_success setupTestFactory testCollections
      (txMockDB none none none none none none) "imsi-1" authenticationSubscription rfl rfl).1,
   (subscriberAuthenticationDataCreate_success setupTestFactory testCollections
      (txMockDB none none none none none none) "imsi-1" authenticationSubscription rfl rfl).2.1⟩

/-- C6: when the post of the authentication record fails,
`subscriberAuthenticationDataCreate` returns that error, the failed post is the
only call the client receives, so no post to the amData collection is
attempted, and nothing is committed. -/
theorem subscriberAuthenticationDataCreate_auth_fails (WebUIConfig : Config) (c : Collections)
    (db : DBClient) (imsi : String) (authSubData : AuthenticationSubscription) (e : Error)
    (h1 : db.failure db.log
          (DBCall.RestfulAPIPostOnDB WebUIConfig.Configuration.Mongodb.AuthKeysDbName
            c.authSubsDataColl [("ueId", .str imsi)]
            (BsonM.set (ToBsonM authSubData.fields) "ueId" (.str imsi))) = some e) :
    (subscriberAuthenticationDataCreate WebUIConfig c db imsi authSubData).1 = some e
      ∧ (subscriberAuthenticationDataCreate WebUIConfig c db imsi authSubData).2.log
        = db.log ++ [((DBCall.RestfulAPIPostOnDB WebUIConfig.Configuration.Mongodb.AuthKeysDbName
            c.authSubsDataColl [("ueId", .str imsi)]
            (BsonM.set (ToBsonM authSubData.fields) "ueId" (.str imsi))), some e)]
      ∧ (∀ (collName : String) (filter postData : BsonM) (outcome : Option Error),
          (DBCall.RestfulAPIPostWithContext collName filter postData, outcome)
            ∉ (subscriberAuthenticationDataCreate WebUIConfig c db imsi authSubData).2.log.drop db.log.length)
      ∧ (subscriberAuthenticationDataCreate WebUIConfig c db imsi authSubData).2.committed = db.committed := by
  rw [subscriberAuthenticationDataCreate_first_fails WebUIConfig c db imsi authSubData e h1]
  refine ⟨rfl, rfl, ?_, rfl⟩
  intro collName filter postData outcome
  simp

/-- Witness of C6 on the test fixture whose auth post fails. -/
theorem subscriberAuthenticationDataCreate_auth_fails_witness :
    (subscriberAuthenticationDataCreate setupTestFactory testCollections
        (txMockDB (some "auth db failure") none none none none none) "imsi-1"
        authenticationSubscription).1 = some "auth db failure"
      ∧ (subscriberAuthenticationDataCreate setupTestFactory testCollections
        (txMockDB (some "auth db failure") none none none none none) "imsi-1"
        authenticationSubscription).2.log.length = 1 :=
  ⟨(subscriberAuthenticationDataCreate_auth_fails setupTestFactory testCollections
      (txMockDB (some "auth db failure") none none none none none) "imsi-1"
      authenticationSubscription "auth db failure" rfl).1,
   by
    rw [(subscriberAuthenticationDataCreate_auth_fails setupTestFactory testCollections
      (txMockDB (some "auth db failure") none none none none none) "imsi-1"
      authenticationSubscription "auth db failure" rfl).2.1]
    rfl⟩

/-- C7: when the auth post succeeds and the amData post fails,
`subscriberAuthenticationDataCreate` returns the amData error, and the calls the
client received are the auth post, once and successful, followed by the failed
amData post. -/
theorem subscriberAuthenticationDataCreate_am_fails (WebUIConfig : Config) (c : Collections)
    (db : DBClient) (imsi : String) (authSubData : AuthenticationSubscription) (e : Error)
    (h1 : db.failure db.log
          (DBCall.RestfulAPIPostOnDB WebUIConfig.Configuration.Mongodb.AuthKeysDbName
            c.authSubsDataColl [("ueId", .str imsi)]
            (BsonM.set (ToBsonM authSubData.fields) "ueId" (.str imsi))) = none)
    (h2 : db.failure
          (db.log ++ [((DBCall.RestfulAPIPostOnDB WebUIConfig.Configuration.Mongodb.AuthKeysDbName
            c.authSubsDataColl [("ueId", .str imsi)]
            (BsonM.set (ToBsonM authSubData.fields) "ueId" (.str imsi))), none)])
          (DBCall.RestfulAPIPostWithContext c.amDataColl [("ueId", .str imsi)]
            [("ueId", .str imsi)]) = some e) :
    (subscriberAuthenticationDataCreate WebUIConfig c db imsi authSubData).1 = some e
      ∧ (subscriberAuthenticationDataCreate WebUIConfig c db imsi authSubData).2.log
        = db.log ++
          [((DBCall.RestfulAPIPostOnDB WebUIConfig.Configuration.Mongodb.AuthKeysDbName
            c.authSubsDataColl [("ueId", .str imsi)]
            (BsonM.set (ToBsonM authSubData.fields) "ueId" (.str imsi))), none),
           ((DBCall.RestfulAPIPostWithContext c.amDataColl [("ueId", .str imsi)]
            [("ueId", .str imsi)]), some e)] := by
  rw [subscriberAuthenticationDataCreate_second_fails WebUIConfig c db imsi authSubData e h1 h2]
  exact ⟨rfl, rfl⟩

/-- Witness of C7 on the test fixture whose amData post fails. -/
theorem subscriberAuthenticationDataCreate_am_fails_witness :
    (subscriberAuthenticationDataCreate setupTestFactory testCollections
        (txMockDB none (some "common db failure") none none none none) "imsi-1"
        authenticationSubscription).2.log
      = [(DBCall.RestfulAPIPostOnDB "auth_test_db"
            "subscriptionData.authenticationData.authenticationSubscription"
            [("ueId", .str "imsi-1")]
            (BsonM.set authenticationSubscription.fields "ueId" (.str "imsi-1")), none),
         (DBCall.RestfulAPIPostWithContext "subscriptionData.provisionedData.amData"
            [("ueId", .str "imsi-1")] [("ueId", .str "imsi-1")], some "common db failure")] :=
  (subscriberAuthenticationDataCreate_am_fails setupTestFactory testCollections
    (txMockDB none (some "common db failure") none none none none) "imsi-1"
    authenticationSubscription "common db failure" rfl rfl).2

/-! ## Subscriber deletion -/

/-- C8: when neither delete fails, `subscriberAuthenticationDataDelete` returns
no error and the client receives exactly two calls, in this order: the delete on
the configured auth database and `authSubsDataColl` with filter `ueId = imsi`,
then the delete on `amDataColl` with the same filter. -/
theorem subscriberAuthenticationDataDelete_success (WebUIConfig : Config) (c : Collections)
    (db : DBClient) (imsi : String)
    (h1 : db.failure db.log
          (DBCall.RestfulAPIDeleteOneOnDB WebUIConfig.Configuration.Mongodb.AuthKeysDbName
            c.authSubsDataColl [("ueId", .str imsi)]) = none)
    (h2 : db.failure
          (db.log ++ [((DBCall.RestfulAPIDeleteOneOnDB WebUIConfig.Configuration.Mongodb.AuthKeysDbName
            c.authSubsDataColl [("ueId", .str imsi)]), none)])
          (DBCall.RestfulAPIDeleteOneWithContext c.amDataColl [("ueId", .str imsi)]) = none) :
    (subscriberAuthenticationDataDelete WebUIConfig c db imsi).1 = none
      ∧ (subscriberAuthenticationDataDelete WebUIConfig c db imsi).2.log
        = db.log ++
          [((DBCall.RestfulAPIDeleteOneOnDB WebUIConfig.Configuration.Mongodb.AuthKeysDbName
            c.authSubsDataColl [("ueId", .str imsi)]), none),
           ((DBCall.RestfulAPIDeleteOneWithContext c.amDataColl [("ueId", .str imsi)]), none)] := by
  rw [subscriberAuthenticationDataDelete_both_succeed WebUIConfig c db imsi h1 h2]
  exact ⟨rfl, rfl⟩

/-- Witness of C8 on the test fixture `TestSubscriberAuthenticationDataDelete_Success`. -/
theorem subscriberAuthenticationDataDelete_success_witness :
    (subscriberAuthenticationDataDelete setupTestFactory testCollections
        (txMockDB none none none none none none) "imsi-12345").1 = none
      ∧ (subscriberAuthenticationDataDelete setupTestFactory testCollections
        (txMockDB none none none none none none) "imsi-12345").2.log
        = [(DBCall.RestfulAPIDeleteOneOnDB "auth_test_db"
              "subscriptionData.authenticationData.authenticationSubscription"
              [("ueId", .str "imsi-12345")], none),
           (DBCall.RestfulAPIDeleteOneWithContext "subscriptionData.provisionedData.amData"
              [("ueId", .str "imsi-12345")], none)] :=
  subscriberAuthenticationDataDelete_success setupTestFactory testCollections
    (txMockDB none none none none none none) "imsi-12345" rfl rfl

/-- C9, counterexample: when both deletes succeed and the commit of the session
is not achieved, `subscriberAuthenticationDataDelete` returns the error of the
runner although none of its deletes failed; so it is false that it returns an
error only if one of its two deletes fails. -/
theorem subscriberAuthenticationDataDelete_errors_counterexample :
    ¬ ((subscriberAuthenticationDataDelete.withFaults ⟨none, some "transaction failed"⟩
        setupTestFactory testCollections (txMockDB none none none none none none)
        "imsi-12345").1 ≠ none
        ↔ ∃ entry ∈ (subscriberAuthenticationDataDelete.withFaults ⟨none, some "transaction failed"⟩
        setupTestFactory testCollections (txMockDB none none none none none none)
        "imsi-12345").2.log,
            entry.2 ≠ none) := by
  have hrun : (subscriberAuthenticationDataDelete.withFaults ⟨none, some "transaction failed"⟩
        setupTestFactory testCollections (txMockDB none none none none none none)
        "imsi-12345")
      = (some "transaction failed",
         { txMockDB none none none none none none with
            log := [(DBCall.RestfulAPIDeleteOneOnDB "auth_test_db"
                      "subscriptionData.authenticationData.authenticationSubscription"
                      [("ueId", .str "imsi-12345")], none),
                    (DBCall.RestfulAPIDeleteOneWithContext
                      "subscriptionData.provisionedData.amData"
                      [("ueId", .str "imsi-12345")], none)] }) := rfl
  rw [hrun]
  simp

/-- C9, amended: `subscriberAuthenticationDataDelete` returns an error whenever
one of the deletes it issued failed, and it returns nil only when both deletes
were issued and succeeded; besides a failed delete, the only source of an error
is the session runner itself, a session that cannot be started or a commit that
is not achieved. The amData delete is among the calls issued if and only if the
auth delete succeeded; a failed auth delete is the only call issued and its
error is returned; a failed amData delete comes right after the one successful
auth delete and its error is returned. With no fault of the session the function
is `subscriberAuthenticationDataDelete`. -/
theorem subscriberAuthenticationDataDelete_errors (faults : SessionFaults)
    (WebUIConfig : Config) (c : Collections) (db : DBClient) (imsi : String) :
    ((∃ entry ∈ ((subscriberAuthenticationDataDelete.withFaults faults WebUIConfig c db imsi).2.log.drop db.log.length),
          entry.2 ≠ none) →
        (subscriberAuthenticationDataDelete.withFaults faults WebUIConfig c db imsi).1 ≠ none)
      ∧ ((subscriberAuthenticationDataDelete.withFaults faults WebUIConfig c db imsi).1 ≠ none
        ↔ ((∃ entry ∈ ((subscriberAuthenticationDataDelete.withFaults faults WebUIConfig c db imsi).2.log.drop db.log.length),
              entry.2 ≠ none)
            ∨ faults.StartSession ≠ none ∨ faults.CommitTransaction ≠ none))
      ∧ ((subscriberAuthenticationDataDelete.withFaults faults WebUIConfig c db imsi).1 = none →
          ((subscriberAuthenticationDataDelete.withFaults faults WebUIConfig c db imsi).2.log.drop db.log.length)
            = [((DBCall.RestfulAPIDeleteOneOnDB WebUIConfig.Configuration.Mongodb.AuthKeysDbName
            c.authSubsDataColl [("ueId", .str imsi)]), none),
               ((DBCall.RestfulAPIDeleteOneWithContext c.amDataColl [("ueId", .str imsi)]), none)])
      ∧ ((∃ outcome : Option Error,
            ((DBCall.RestfulAPIDeleteOneWithContext c.amDataColl [("ueId", .str imsi)]), outcome)
              ∈ ((subscriberAuthenticationDataDelete.withFaults faults WebUIConfig c db imsi).2.log.drop db.log.length))
          ↔ ((DBCall.RestfulAPIDeleteOneOnDB WebUIConfig.Configuration.Mongodb.AuthKeysDbName
            c.authSubsDataColl [("ueId", .str imsi)]), (none : Option Error))
              ∈ ((subscriberAuthenticationDataDelete.withFaults faults WebUIConfig c db imsi).2.log.drop db.log.length))
      ∧ (∀ e : Error,
          faults.StartSession = none →
          db.failure db.log
            (DBCall.RestfulAPIDeleteOneOnDB WebUIConfig.Configuration.Mongodb.AuthKeysDbName
            c.authSubsDataColl [("ueId", .str imsi)]) = some e →
          (subscriberAuthenticationDataDelete.withFaults faults WebUIConfig c db imsi).1 = some e
            ∧ ((subscriberAuthenticationDataDelete.withFaults faults WebUIConfig c db imsi).2.log.drop db.log.length)
              = [((DBCall.RestfulAPIDeleteOneOnDB WebUIConfig.Configuration.Mongodb.AuthKeysDbName
            c.authSubsDataColl [("ueId", .str imsi)]), some e)])
      ∧ (∀ e : Error,
          faults.StartSession = none →
          db.failure db.log
            (DBCall.RestfulAPIDeleteOneOnDB WebUIConfig.Configuration.Mongodb.AuthKeysDbName
            c.authSubsDataColl [("ueId", .str imsi)]) = none →
          db.failure
            (db.log ++ [((DBCall.RestfulAPIDeleteOneOnDB WebUIConfig.Configuration.Mongodb.AuthKeysDbName
            c.authSubsDataColl [("ueId", .str imsi)]), none)])
            (DBCall.RestfulAPIDeleteOneWithContext c.amDataColl [("ueId", .str imsi)]) = some e →
          (subscriberAuthenticationDataDelete.withFaults faults WebUIConfig c db imsi).1 = some e
            ∧ ((subscriberAuthenticationDataDelete.withFaults faults WebUIConfig c db imsi).2.log.drop db.log.length)
              = [((DBCall.RestfulAPIDeleteOneOnDB WebUIConfig.Configuration.Mongodb.AuthKeysDbName
            c.authSubsDataColl [("ueId", .str imsi)]), none),
                 ((DBCall.RestfulAPIDeleteOneWithContext c.amDataColl [("ueId", .str imsi)]), some e)])
      ∧ subscriberAuthenticationDataDelete.withFaults ⟨none, none⟩ WebUIConfig c db imsi
          = subscriberAuthenticationDataDelete WebUIConfig c db imsi := by
  refine ⟨?_, ?_, ?_, ?_, ?_, ?_, rfl⟩ <;>
  (cases hs : faults.StartSession with
  | some es =>
    simp [subscriberAuthenticationDataDelete.withFaults, GetSessionRunner.withFaults, hs]
  | none =>
    cases h1 : db.failure db.log
        (DBCall.RestfulAPIDeleteOneOnDB WebUIConfig.Configuration.Mongodb.AuthKeysDbName
            c.authSubsDataColl [("ueId", .str imsi)]) with
    | some e1 =>
      simp [subscriberAuthenticationDataDelete.withFaults, GetSessionRunner.withFaults, hs,
        DBClient.RestfulAPIDeleteOneOnDB, DBClient.RestfulAPIDeleteOneWithContext,
        DBClient.issue, h1]
    | none =>
      cases h2 : db.failure
          (db.log ++ [((DBCall.RestfulAPIDeleteOneOnDB WebUIConfig.Configuration.Mongodb.AuthKeysDbName
            c.authSubsDataColl [("ueId", .str imsi)]), none)])
          (DBCall.RestfulAPIDeleteOneWithContext c.amDataColl [("ueId", .str imsi)]) with
      | some e2 =>
        simp [subscriberAuthenticationDataDelete.withFaults, GetSessionRunner.withFaults, hs,
          DBClient.RestfulAPIDeleteOneOnDB, DBClient.RestfulAPIDeleteOneWithContext,
          DBClient.issue, h1, h2]
      | none =>
        cases hc : faults.CommitTransaction with
        | some ec =>
          simp [subscriberAuthenticationDataDelete.withFaults, GetSessionRunner.withFaults,
            hs, DBClient.RestfulAPIDeleteOneOnDB, DBClient.RestfulAPIDeleteOneWithContext,
            DBClient.issue, h1, h2, hc]
        | none =>
          simp [subscriberAuthenticationDataDelete.withFaults, GetSessionRunner.withFaults,
            hs, DBClient.RestfulAPIDeleteOneOnDB, DBClient.RestfulAPIDeleteOneWithContext,
            DBClient.issue, h1, h2, hc])

/-- Witness of the amended C9 on the test fixture whose auth delete fails: the
error is returned and the failed auth delete is the only call issued. -/
theorem subscriberAuthenticationDataDelete_errors_witness :
    (subscriberAuthenticationDataDelete.withFaults ⟨none, none⟩ setupTestFactory
        testCollections (txMockDB none none none none (some "fail on authdb delete") none)
        "imsi-12345").1
        = some "fail on authdb delete"
      ∧ (subscriberAuthenticationDataDelete.withFaults ⟨none, none⟩ setupTestFactory
          testCollections (txMockDB none none none none (some "fail on authdb delete") none)
          "imsi-12345").2.log.drop
            (txMockDB none none none none (some "fail on authdb delete") none).log.length
        = [(DBCall.RestfulAPIDeleteOneOnDB "auth_test_db"
              "subscriptionData.authenticationData.authenticationSubscription"
              [("ueId", .str "imsi-12345")], some "fail on authdb delete")] :=
  (subscriberAuthenticationDataDelete_errors ⟨none, none⟩ setupTestFactory testCollections
    (txMockDB none none none none (some "fail on authdb delete") none)
    "imsi-12345").2.2.2.2.1 "fail on authdb delete" rfl rfl

/-! ## Subscriber update -/

/-- C10: `subscriberAuthenticationDataUpdate` updates the two records together.
Inside one session it puts the authentication data, carrying `ueId = imsi`, to
the auth database under filter `ueId = imsi` and then puts the document
`ueId = imsi` to `amDataColl` under the same filter, and both puts are committed
together; it returns nil only if both puts succeeded; after a failed auth put no
amData put is issued; and when either put fails its error is returned and
nothing is committed. -/
theorem subscriberAuthenticationDataUpdate_together (WebUIConfig : Config) (c : Collections)
    (db : DBClient) (imsi : String) (authSubData : AuthenticationSubscription) :
    (db.failure db.log
          (DBCall.RestfulAPIPutOneOnDB WebUIConfig.Configuration.Mongodb.AuthKeysDbName
            c.authSubsDataColl [("ueId", .str imsi)]
            (BsonM.set (ToBsonM authSubData.fields) "ueId" (.str imsi))) = none →
        db.failure
          (db.log ++ [((DBCall.RestfulAPIPutOneOnDB WebUIConfig.Configuration.Mongodb.AuthKeysDbName
            c.authSubsDataColl [("ueId", .str imsi)]
            (BsonM.set (ToBsonM authSubData.fields) "ueId" (.str imsi))), none)])
          (DBCall.RestfulAPIPutOneWithContext c.amDataColl [("ueId", .str imsi)]
            [("ueId", .str imsi)]) = none →
        (subscriberAuthenticationDataUpdate WebUIConfig c db imsi authSubData).1 = none
          ∧ ((subscriberAuthenticationDataUpdate WebUIConfig c db imsi authSubData).2.log.drop db.log.length)
            = [((DBCall.RestfulAPIPutOneOnDB WebUIConfig.Configuration.Mongodb.AuthKeysDbName
            c.authSubsDataColl [("ueId", .str imsi)]
            (BsonM.set (ToBsonM authSubData.fields) "ueId" (.str imsi))), none),
               ((DBCall.RestfulAPIPutOneWithContext c.amDataColl [("ueId", .str imsi)]
            [("ueId", .str imsi)]), none)]
          ∧ (subscriberAuthenticationDataUpdate WebUIConfig c db imsi authSubData).2.committed
            = db.committed ++
              [(DBCall.RestfulAPIPutOneOnDB WebUIConfig.Configuration.Mongodb.AuthKeysDbName
            c.authSubsDataColl [("ueId", .str imsi)]
            (BsonM.set (ToBsonM authSubData.fields) "ueId" (.str imsi))),
               (DBCall.RestfulAPIPutOneWithContext c.amDataColl [("ueId", .str imsi)]
            [("ueId", .str imsi)])])
      ∧ ((subscriberAuthenticationDataUpdate WebUIConfig c db imsi authSubData).1 = none →
          ((DBCall.RestfulAPIPutOneOnDB WebUIConfig.Configuration.Mongodb.AuthKeysDbName
            c.authSubsDataColl [("ueId", .str imsi)]
            (BsonM.set (ToBsonM authSubData.fields) "ueId" (.str imsi))), (none : Option Error))
              ∈ ((subscriberAuthenticationDataUpdate WebUIConfig c db imsi authSubData).2.log.drop db.log.length)
            ∧ ((DBCall.RestfulAPIPutOneWithContext c.amDataColl [("ueId", .str imsi)]
            [("ueId", .str imsi)]), (none : Option Error))
              ∈ ((subscriberAuthenticationDataUpdate WebUIConfig c db imsi authSubData).2.log.drop db.log.length))
      ∧ (∀ e : Error,
          ((DBCall.RestfulAPIPutOneOnDB WebUIConfig.Configuration.Mongodb.AuthKeysDbName
            c.authSubsDataColl [("ueId", .str imsi)]
            (BsonM.set (ToBsonM authSubData.fields) "ueId" (.str imsi))), some e)
              ∈ ((subscriberAuthenticationDataUpdate WebUIConfig c db imsi authSubData).2.log.drop db.log.length) →
          ∀ (collName : String) (filter putData : BsonM) (outcome : Option Error),
            (DBCall.RestfulAPIPutOneWithContext collName filter putData, outcome)
              ∉ ((subscriberAuthenticationDataUpdate WebUIConfig c db imsi authSubData).2.log.drop db.log.length))
      ∧ ((subscriberAuthenticationDataUpdate WebUIConfig c db imsi authSubData).1 ≠ none →
          (subscriberAuthenticationDataUpdate WebUIConfig c db imsi authSubData).2.committed = db.committed)
      ∧ (∀ e : Error,
          db.failure db.log
            (DBCall.RestfulAPIPutOneOnDB WebUIConfig.Configuration.Mongodb.AuthKeysDbName
            c.authSubsDataColl [("ueId", .str imsi)]
            (BsonM.set (ToBsonM authSubData.fields) "ueId" (.str imsi))) = some e →
          (subscriberAuthenticationDataUpdate WebUIConfig c db imsi authSubData).1 = some e)
      ∧ (∀ e : Error,
          db.failure db.log
            (DBCall.RestfulAPIPutOneOnDB WebUIConfig.Configuration.Mongodb.AuthKeysDbName
            c.authSubsDataColl [("ueId", .str imsi)]
            (BsonM.set (ToBsonM authSubData.fields) "ueId" (.str imsi))) = none →
          db.failure
            (db.log ++ [((DBCall.RestfulAPIPutOneOnDB WebUIConfig.Configuration.Mongodb.AuthKeysDbName
            c.authSubsDataColl [("ueId", .str imsi)]
            (BsonM.set (ToBsonM authSubData.fields) "ueId" (.str imsi))), none)])
            (DBCall.RestfulAPIPutOneWithContext c.amDataColl [("ueId", .str imsi)]
            [("ueId", .str imsi)]) = some e →
          (subscriberAuthenticationDataUpdate WebUIConfig c db imsi authSubData).1 = some e)
      ∧ (BsonM.set (ToBsonM authSubData.fields) "ueId" (.str imsi)).get "ueId"
          = some (.str imsi)
      ∧ (∀ key : String, key ≠ "ueId" →
          (BsonM.set (ToBsonM authSubData.fields) "ueId" (.str imsi)).get key
            = BsonM.get authSubData.fields key) := by
  have hdata : (BsonM.set (ToBsonM authSubData.fields) "ueId" (.str imsi)).get "ueId"
          = some (.str imsi)
      ∧ (∀ key : String, key ≠ "ueId" →
          (BsonM.set (ToBsonM authSubData.fields) "ueId" (.str imsi)).get key
            = BsonM.get authSubData.fields key) :=
    ⟨BsonM.get_set_self _ _ _, fun key hkey => BsonM.get_set_other _ _ _ _ hkey⟩
  refine ⟨?_, ?_, ?_, ?_, ?_, ?_, hdata⟩ <;>
  cases h1 : db.failure db.log
      (DBCall.RestfulAPIPutOneOnDB WebUIConfig.Configuration.Mongodb.AuthKeysDbName
            c.authSubsDataColl [("ueId", .str imsi)]
            (BsonM.set (ToBsonM authSubData.fields) "ueId" (.str imsi))) with
  | some e1 =>
    rw [subscriberAuthenticationDataUpdate_first_fails WebUIConfig c db imsi authSubData e1 h1]
    simp
  | none =>
    cases h2 : db.failure
        (db.log ++ [((DBCall.RestfulAPIPutOneOnDB WebUIConfig.Configuration.Mongodb.AuthKeysDbName
            c.authSubsDataColl [("ueId", .str imsi)]
            (BsonM.set (ToBsonM authSubData.fields) "ueId" (.str imsi))), none)])
        (DBCall.RestfulAPIPutOneWithContext c.amDataColl [("ueId", .str imsi)]
            [("ueId", .str imsi)]) with
    | some e2 =>
      rw [subscriberAuthenticationDataUpdate_second_fails WebUIConfig c db imsi authSubData
        e2 h1 h2]
      simp
    | none =>
      rw [subscriberAuthenticationDataUpdate_both_succeed WebUIConfig c db imsi authSubData
        h1 h2]
      simp

/-- Witness of C10 on the test fixture with no failure: no error is returned and
both puts are committed, in order. -/
theorem subscriberAuthenticationDataUpdate_together_witness :
    (subscriberAuthenticationDataUpdate setupTestFactory testCollections
        (txMockDB none none none none none none) "imsi-1" authenticationSubscription).1 = none
      ∧ (subscriberAuthenticationDataUpdate setupTestFactory testCollections
        (txMockDB none none none none none none) "imsi-1"
        authenticationSubscription).2.committed
        = [DBCall.RestfulAPIPutOneOnDB "auth_test_db"
              "subscriptionData.authenticationData.authenticationSubscription"
              [("ueId", .str "imsi-1")]
              (BsonM.set authenticationSubscription.fields "ueId" (.str "imsi-1")),
           DBCall.RestfulAPIPutOneWithContext "subscriptionData.provisionedData.amData"
              [("ueId", .str "imsi-1")] [("ueId", .str "imsi-1")]] :=
  ⟨((subscriberAuthenticationDataUpdate_together setupTestFactory testCollections
      (txMockDB none none none none none none) "imsi-1" authenticationSubscription).1
      rfl rfl).1,
   ((subscriberAuthenticationDataUpdate_together setupTestFactory testCollections
      (txMockDB none none none none none none) "imsi-1" authenticationSubscription).1
      rfl rfl).2.2⟩

/-! ## A session of any number of calls -/

theorem DBClient.issueAll_succeed (calls : List DBCall) (db : DBClient)
    (h : ∀ (i : Nat) (d : DBCall), calls[i]? = some d →
      db.failure (db.log ++ (calls.take i).map (fun x => (x, none))) d = none) :
    db.issueAll calls
      = (none, { db with log := db.log ++ calls.map (fun x => (x, none)),
                         session := db.session ++ calls }) := by
  induction calls generalizing db with
  | nil => simp [DBClient.issueAll]
  | cons call rest ih =>
    have h0 : db.failure db.log call = none := by
      have := h 0 call (by simp)
      simpa using this
    have hrest : ∀ (i : Nat) (d : DBCall), rest[i]? = some d →
        db.failure ((db.log ++ [(call, none)]) ++ (rest.take i).map (fun x => (x, none))) d
          = none := by
      intro i d hi
      have := h (i + 1) d (by simpa using hi)
      simpa [List.append_assoc] using this
    simp only [DBClient.issueAll, DBClient.issue, h0]
    rw [ih _ hrest]
    simp [List.append_assoc]

theorem DBClient.issueAll_fail (calls : List DBCall) (db : DBClient) (k : Nat) (d : DBCall)
    (e : Error) (hd : calls[k]? = some d)
    (hprev : ∀ (i : Nat) (x : DBCall), i < k → calls[i]? = some x →
      db.failure (db.log ++ (calls.take i).map (fun x => (x, none))) x = none)
    (hfail : db.failure (db.log ++ (calls.take k).map (fun x => (x, none))) d = some e) :
    db.issueAll calls
      = (some e, { db with
                   log := db.log ++ (calls.take k).map (fun x => (x, none)) ++ [(d, some e)],
                   session := db.session ++ calls.take k }) := by
  induction calls generalizing db k with
  | nil => simp at hd
  | cons call rest ih =>
    cases k with
    | zero =>
      have hcd : call = d := by simpa using hd
      subst hcd
      have h0 : db.failure db.log call = some e := by simpa using hfail
      simp [DBClient.issueAll, DBClient.issue, h0]
    | succ k =>
      have h0 : db.failure db.log call = none := by
        have := hprev 0 call (Nat.succ_pos k) (by simp)
        simpa using this
      have hd1 : rest[k]? = some d := by simpa using hd
      have hprev1 : ∀ (i : Nat) (x : DBCall), i < k → rest[i]? = some x →
          db.failure ((db.log ++ [(call, none)]) ++ (rest.take i).map (fun x => (x, none))) x
            = none := by
        intro i x hi hx
        have := hprev (i + 1) x (Nat.succ_lt_succ hi) (by simpa using hx)
        simpa [List.append_assoc] using this
      have hfail1 : db.failure
          ((db.log ++ [(call, none)]) ++ (rest.take k).map (fun x => (x, none))) d = some e := by
        simpa [List.append_assoc] using hfail
      simp only [DBClient.issueAll, DBClient.issue, h0]
      rw [ih _ k hd1 hprev1 hfail1]
      simp [List.append_assoc]

theorem removeSubscriberEntriesRelatedToDeviceGroups_eq (c : Collections) (db : DBClient)
    (mcc mnc imsi : String) :
    removeSubscriberEntriesRelatedToDeviceGroups c db mcc mnc imsi
      = GetSessionRunner db (fun sc =>
          sc.issueAll ((subscriberCleanupTargets c ("imsi-" ++ imsi) (mcc ++ mnc)).map
            (fun t => DBCall.RestfulAPIDeleteOneWithContext t.1 t.2))) := by
  have hclosure :
      (fun sc : DBClient =>
        match sc.RestfulAPIDeleteOneWithContext c.amPolicyDataColl
            [("ueId", .str ("imsi-" ++ imsi))] with
        | (some err, sc) => (some err, sc)
        | (none, sc) =>
          match sc.RestfulAPIDeleteOneWithContext c.smPolicyDataColl
              [("ueId", .str ("imsi-" ++ imsi))] with
          | (some err, sc) => (some err, sc)
          | (none, sc) =>
            match sc.RestfulAPIDeleteOneWithContext c.amDataColl
                [("ueId", .str ("imsi-" ++ imsi)), ("servingPlmnId", .str (mcc ++ mnc))] with
            | (some err, sc) => (some err, sc)
            | (none, sc) =>
              match sc.RestfulAPIDeleteOneWithContext c.smDataColl
                  [("ueId", .str ("imsi-" ++ imsi)), ("servingPlmnId", .str (mcc ++ mnc))] with
              | (some err, sc) => (some err, sc)
              | (none, sc) =>
                match sc.RestfulAPIDeleteOneWithContext c.smfSelDataColl
                    [("ueId", .str ("imsi-" ++ imsi)),
                     ("servingPlmnId", .str (mcc ++ mnc))] with
                | (some err, sc) => (some err, sc)
                | (none, sc) => (none, sc))
        = (fun sc => sc.issueAll
            ((subscriberCleanupTargets c ("imsi-" ++ imsi) (mcc ++ mnc)).map
              (fun t => DBCall.RestfulAPIDeleteOneWithContext t.1 t.2))) := by
    funext sc
    rfl
  unfold removeSubscriberEntriesRelatedToDeviceGroups
  simp only []
  rw [hclosure]
  generalize GetSessionRunner db (fun sc => sc.issueAll
      ((subscriberCleanupTargets c ("imsi-" ++ imsi) (mcc ++ mnc)).map
        (fun t => DBCall.RestfulAPIDeleteOneWithContext t.1 t.2))) = r
  rcases r with ⟨err, db1⟩
  cases err <;> rfl

theorem DBClient.issueAll_log (calls : List DBCall) (db : DBClient) :
    ∃ news : CallLog,
      (db.issueAll calls).2.log = db.log ++ news ∧ news.map Prod.fst <+: calls := by
  induction calls generalizing db with
  | nil => exact ⟨[], by simp [DBClient.issueAll]⟩
  | cons call rest ih =>
    cases h0 : db.failure db.log call with
    | some e =>
      refine ⟨[(call, some e)], ?_, ?_⟩
      · simp [DBClient.issueAll, DBClient.issue, h0]
      · simp
    | none =>
      obtain ⟨news, hlog, hpre⟩ :=
        ih { db with log := db.log ++ [(call, none)], session := db.session ++ [call] }
      refine ⟨(call, none) :: news, ?_, ?_⟩
      · simp only [DBClient.issueAll, DBClient.issue, h0]
        rw [hlog]
        simp [List.append_assoc]
      · simpa using hpre

theorem GetSessionRunner_log (db : DBClient) (fn : DBClient → Option Error × DBClient) :
    (GetSessionRunner db fn).2.log = (fn { db with session := [] }).2.log := by
  unfold GetSessionRunner
  rcases fn { db with session := [] } with ⟨err, sc⟩
  cases err <;> rfl

theorem GetSessionRunner_issueAll_succeed (calls : List DBCall) (db : DBClient)
    (h : ∀ (i : Nat) (d : DBCall), calls[i]? = some d →
      db.failure (db.log ++ (calls.take i).map (fun x => (x, none))) d = none) :
    GetSessionRunner db (fun sc => sc.issueAll calls)
      = (none, { db with log := db.log ++ calls.map (fun x => (x, none)),
                         session := [],
                         committed := db.committed ++ calls }) := by
  have h1 : ∀ (i : Nat) (d : DBCall), calls[i]? = some d →
      ({ db with session := [] } : DBClient).failure
        (({ db with session := [] } : DBClient).log
          ++ (calls.take i).map (fun x => (x, none))) d = none := h
  have hrun := DBClient.issueAll_succeed calls { db with session := [] } h1
  simp only [GetSessionRunner, hrun, List.nil_append]

theorem GetSessionRunner_issueAll_fail (calls : List DBCall) (db : DBClient) (k : Nat)
    (d : DBCall) (e : Error) (hd : calls[k]? = some d)
    (hprev : ∀ (i : Nat) (x : DBCall), i < k → calls[i]? = some x →
      db.failure (db.log ++ (calls.take i).map (fun x => (x, none))) x = none)
    (hfail : db.failure (db.log ++ (calls.take k).map (fun x => (x, none))) d = some e) :
    GetSessionRunner db (fun sc => sc.issueAll calls)
      = (some e, { db with
                   log := db.log ++ (calls.take k).map (fun x => (x, none)) ++ [(d, some e)],
                   session := [] }) := by
  have hprev1 : ∀ (i : Nat) (x : DBCall), i < k → calls[i]? = some x →
      ({ db with session := [] } : DBClient).failure
        (({ db with session := [] } : DBClient).log
          ++ (calls.take i).map (fun x => (x, none))) x = none := hprev
  have hfail1 : ({ db with session := [] } : DBClient).failure
        (({ db with session := [] } : DBClient).log
          ++ (calls.take k).map (fun x => (x, none))) d = some e := hfail
  have hrun := DBClient.issueAll_fail calls { db with session := [] } k d e hd hprev1 hfail1
  simp only [GetSessionRunner, hrun]

theorem cleanup_log_on_txMockDB :
    (removeSubscriberEntriesRelatedToDeviceGroups testCollections
        (txMockDB none none none none none none) "208" "93" "208930100007487").2.log
      = (subscriberCleanupTargets testCollections "imsi-208930100007487" "20893").map
          (fun t => (DBCall.RestfulAPIDeleteOneWithContext t.1 t.2, none)) := by
  rw [removeSubscriberEntriesRelatedToDeviceGroups_eq,
    GetSessionRunner_issueAll_succeed _ _ (by
      intro i d _
      cases d <;> rfl)]
  rfl

/-! ## Cleanup of the subscriber entries -/

/-- C11: the purges of `removeSubscriberEntriesRelatedToDeviceGroups` are a fixed
table of its arguments. When no delete fails it returns nil and the client
receives exactly five deletes, in order, on `amPolicyDataColl`,
`smPolicyDataColl`, `amDataColl`, `smDataColl` and `smfSelDataColl`, each with
`ueId = "imsi-" ++ imsi`, the first two filtered by `ueId` only and the last
three also by `servingPlmnId = mcc ++ mnc`; these are the entries of
`subscriberCleanupTargets`, and nothing else is issued or committed. -/
theorem removeSubscriberEntriesRelatedToDeviceGroups_table (c : Collections) (db : DBClient)
    (mcc mnc imsi : String)
    (hok : ∀ (i : Nat) (d : DBCall),
      ((subscriberCleanupTargets c ("imsi-" ++ imsi) (mcc ++ mnc)).map
            (fun t => DBCall.RestfulAPIDeleteOneWithContext t.1 t.2))[i]? = some d →
      db.failure
          (db.log ++
            (((subscriberCleanupTargets c ("imsi-" ++ imsi) (mcc ++ mnc)).map
            (fun t => DBCall.RestfulAPIDeleteOneWithContext t.1 t.2)).take i).map
              (fun x => (x, none))) d = none) :
    (removeSubscriberEntriesRelatedToDeviceGroups c db mcc mnc imsi).1 = none
      ∧ (removeSubscriberEntriesRelatedToDeviceGroups c db mcc mnc imsi).2.log
        = db.log ++
          [(DBCall.RestfulAPIDeleteOneWithContext c.amPolicyDataColl
              [("ueId", .str ("imsi-" ++ imsi))], none),
           (DBCall.RestfulAPIDeleteOneWithContext c.smPolicyDataColl
              [("ueId", .str ("imsi-" ++ imsi))], none),
           (DBCall.RestfulAPIDeleteOneWithContext c.amDataColl
              [("ueId", .str ("imsi-" ++ imsi)), ("servingPlmnId", .str (mcc ++ mnc))], none),
           (DBCall.RestfulAPIDeleteOneWithContext c.smDataColl
              [("ueId", .str ("imsi-" ++ imsi)), ("servingPlmnId", .str (mcc ++ mnc))], none),
           (DBCall.RestfulAPIDeleteOneWithContext c.smfSelDataColl
              [("ueId", .str ("imsi-" ++ imsi)), ("servingPlmnId", .str (mcc ++ mnc))], none)]
      ∧ (removeSubscriberEntriesRelatedToDeviceGroups c db mcc mnc imsi).2.log
        = db.log ++
          (subscriberCleanupTargets c ("imsi-" ++ imsi) (mcc ++ mnc)).map
            (fun t => (DBCall.RestfulAPIDeleteOneWithContext t.1 t.2, none))
      ∧ (removeSubscriberEntriesRelatedToDeviceGroups c db mcc mnc imsi).2.committed
        = db.committed ++
          ((subscriberCleanupTargets c ("imsi-" ++ imsi) (mcc ++ mnc)).map
            (fun t => DBCall.RestfulAPIDeleteOneWithContext t.1 t.2)) := by
  rw [removeSubscriberEntriesRelatedToDeviceGroups_eq,
    GetSessionRunner_issueAll_succeed _ _ hok]
  simp [subscriberCleanupTargets]

/-- Witness of C11 on the recording client of the tests with no failure. -/
theorem removeSubscriberEntriesRelatedToDeviceGroups_table_witness :
    (removeSubscriberEntriesRelatedToDeviceGroups testCollections
        (txMockDB none none none none none none) "208" "93" "208930100007487").1 = none
      ∧ (removeSubscriberEntriesRelatedToDeviceGroups testCollections
        (txMockDB none none none none none none) "208" "93" "208930100007487").2.log
        = [(DBCall.RestfulAPIDeleteOneWithContext "policyData.ues.amData"
              [("ueId", .str "imsi-208930100007487")], none),
           (DBCall.RestfulAPIDeleteOneWithContext "policyData.ues.smData"
              [("ueId", .str "imsi-208930100007487")], none),
           (DBCall.RestfulAPIDeleteOneWithContext "subscriptionData.provisionedData.amData"
              [("ueId", .str "imsi-208930100007487"), ("servingPlmnId", .str "20893")], none),
           (DBCall.RestfulAPIDeleteOneWithContext "subscriptionData.provisionedData.smData"
              [("ueId", .str "imsi-208930100007487"), ("servingPlmnId", .str "20893")], none),
           (DBCall.RestfulAPIDeleteOneWithContext
              "subscriptionData.provisionedData.smfSelectionSubscriptionData"
              [("ueId", .str "imsi-208930100007487"), ("servingPlmnId", .str "20893")],
              none)] := by
  have h := removeSubscriberEntriesRelatedToDeviceGroups_table testCollections
    (txMockDB none none none none none none) "208" "93" "208930100007487"
    (by
      intro i d _
      cases d <;> rfl)
  exact ⟨h.1, h.2.1⟩

/-- C12, counterexample: with no failing delete, the first delete issued by
`removeSubscriberEntriesRelatedToDeviceGroups`, on the AM policy collection,
carries a filter with no `servingPlmnId` entry; so it is false that every
delete issued filters by both `ueId` and `servingPlmnId`. -/
theorem removeSubscriberEntriesRelatedToDeviceGroups_filters_counterexample :
    ¬ (∀ entry ∈ (removeSubscriberEntriesRelatedToDeviceGroups testCollections
        (txMockDB none none none none none none) "208" "93" "208930100007487").2.log,
        entry.1.filter.get "ueId" = some (.str ("imsi-" ++ "208930100007487"))
          ∧ entry.1.filter.get "servingPlmnId" = some (.str ("208" ++ "93"))) := by
  intro hall
  have hlog := cleanup_log_on_txMockDB
  have hmem : (DBCall.RestfulAPIDeleteOneWithContext "policyData.ues.amData"
      [("ueId", .str "imsi-208930100007487")], (none : Option Error))
        ∈ (removeSubscriberEntriesRelatedToDeviceGroups testCollections
        (txMockDB none none none none none none) "208" "93" "208930100007487").2.log := by
    rw [hlog]
    exact List.mem_cons_self _ _
  have h := (hall _ hmem).2
  simp [DBCall.filter, BsonM.get, List.lookup] at h

/-- C12, amended: every delete issued by
`removeSubscriberEntriesRelatedToDeviceGroups`, whatever fails, is the entry of
the cleanup table at its position and filters by `ueId = "imsi-" ++ imsi`; the
deletes at positions three to five (access data, session data, selection data)
also filter by `servingPlmnId = mcc ++ mnc`, while the two policy deletes at
positions one and two filter by `ueId` only. -/
theorem removeSubscriberEntriesRelatedToDeviceGroups_filters (c : Collections) (db : DBClient)
    (mcc mnc imsi : String) (i : Nat) (entry : DBCall × Option Error)
    (hentry : ((removeSubscriberEntriesRelatedToDeviceGroups c db mcc mnc imsi).2.log.drop db.log.length)[i]? = some entry) :
    (∃ t, (subscriberCleanupTargets c ("imsi-" ++ imsi) (mcc ++ mnc))[i]? = some t
        ∧ entry.1 = DBCall.RestfulAPIDeleteOneWithContext t.1 t.2)
      ∧ entry.1.filter.get "ueId" = some (.str ("imsi-" ++ imsi))
      ∧ (i < 2 → entry.1.filter = [("ueId", .str ("imsi-" ++ imsi))]
          ∧ entry.1.filter.get "servingPlmnId" = none)
      ∧ (2 ≤ i → entry.1.filter.get "servingPlmnId" = some (.str (mcc ++ mnc))) := by
  obtain ⟨news, hlog, hpre⟩ :=
    DBClient.issueAll_log ((subscriberCleanupTargets c ("imsi-" ++ imsi) (mcc ++ mnc)).map
            (fun t => DBCall.RestfulAPIDeleteOneWithContext t.1 t.2))
      { db with session := [] }
  have hnew : ((removeSubscriberEntriesRelatedToDeviceGroups c db mcc mnc imsi).2.log.drop db.log.length) = news := by
    rw [removeSubscriberEntriesRelatedToDeviceGroups_eq, GetSessionRunner_log, hlog]
    simp
  rw [hnew] at hentry
  obtain ⟨rest, hrest⟩ := hpre
  have hcall : ((subscriberCleanupTargets c ("imsi-" ++ imsi) (mcc ++ mnc)).map
            (fun t => DBCall.RestfulAPIDeleteOneWithContext t.1 t.2))[i]? = some entry.1 := by
    rw [← hrest]
    have hlt : i < (news.map Prod.fst).length := by
      rw [List.length_map]
      exact (List.getElem?_eq_some.1 hentry).1
    rw [List.getElem?_append_left hlt, List.getElem?_map, hentry]
    rfl
  have hi : i < 5 := by
    have := (List.getElem?_eq_some.1 hcall).1
    simpa [subscriberCleanupTargets] using this
  interval_cases i <;>
    simp [subscriberCleanupTargets] at hcall <;>
    rw [← hcall] <;>
    simp [subscriberCleanupTargets, DBCall.filter, BsonM.get, List.lookup]

/-- Witness of the amended C12: the third delete issued on the recording client
of the tests, on the access-data collection, filters by `servingPlmnId`. -/
theorem removeSubscriberEntriesRelatedToDeviceGroups_filters_witness :
    (DBCall.RestfulAPIDeleteOneWithContext "subscriptionData.provisionedData.amData"
        [("ueId", .str "imsi-208930100007487"), ("servingPlmnId", .str "20893")]).filter.get
      "servingPlmnId" = some (.str ("208" ++ "93")) :=
  (removeSubscriberEntriesRelatedToDeviceGroups_filters testCollections
    (txMockDB none none none none none none) "208" "93" "208930100007487" 2
    (DBCall.RestfulAPIDeleteOneWithContext "subscriptionData.provisionedData.amData"
        [("ueId", .str "imsi-208930100007487"), ("servingPlmnId", .str "20893")], none)
    rfl).2.2.2 (Nat.le_refl 2)

/-- C13: a partial failure aborts the whole cleanup batch. If the delete at
position `k` of `removeSubscriberEntriesRelatedToDeviceGroups` fails after the
earlier ones succeeded, the function returns that error, the calls received are
the `k` earlier deletes and the failed one, so no later delete is attempted,
and nothing is applied to the store: no write is committed or left staged. -/
theorem removeSubscriberEntriesRelatedToDeviceGroups_aborts (c : Collections) (db : DBClient)
    (mcc mnc imsi : String) (k : Nat) (d : DBCall) (e : Error)
    (hd : ((subscriberCleanupTargets c ("imsi-" ++ imsi) (mcc ++ mnc)).map
            (fun t => DBCall.RestfulAPIDeleteOneWithContext t.1 t.2))[k]? = some d)
    (hprev : ∀ (i : Nat) (x : DBCall), i < k →
      ((subscriberCleanupTargets c ("imsi-" ++ imsi) (mcc ++ mnc)).map
            (fun t => DBCall.RestfulAPIDeleteOneWithContext t.1 t.2))[i]? = some x →
      db.failure
          (db.log ++
            (((subscriberCleanupTargets c ("imsi-" ++ imsi) (mcc ++ mnc)).map
            (fun t => DBCall.RestfulAPIDeleteOneWithContext t.1 t.2)).take i).map
              (fun x => (x, none))) x = none)
    (hfail : db.failure
          (db.log ++
            (((subscriberCleanupTargets c ("imsi-" ++ imsi) (mcc ++ mnc)).map
            (fun t => DBCall.RestfulAPIDeleteOneWithContext t.1 t.2)).take k).map
              (fun x => (x, none))) d = some e) :
    k < 5
      ∧ (removeSubscriberEntriesRelatedToDeviceGroups c db mcc mnc imsi).1 = some e
      ∧ (removeSubscriberEntriesRelatedToDeviceGroups c db mcc mnc imsi).2.log
        = db.log ++
          (((subscriberCleanupTargets c ("imsi-" ++ imsi) (mcc ++ mnc)).map
            (fun t => DBCall.RestfulAPIDeleteOneWithContext t.1 t.2)).take k).map
            (fun x => (x, none)) ++ [(d, some e)]
      ∧ ((removeSubscriberEntriesRelatedToDeviceGroups c db mcc mnc imsi).2.log.drop db.log.length).length = k + 1
      ∧ (removeSubscriberEntriesRelatedToDeviceGroups c db mcc mnc imsi).2.committed = db.committed
      ∧ (removeSubscriberEntriesRelatedToDeviceGroups c db mcc mnc imsi).2.session = [] := by
  have hk : k < 5 := by
    have := (List.getElem?_eq_some.1 hd).1
    simpa [subscriberCleanupTargets] using this
  rw [removeSubscriberEntriesRelatedToDeviceGroups_eq,
    GetSessionRunner_issueAll_fail _ _ k d e hd hprev hfail]
  refine ⟨hk, rfl, rfl, ?_, rfl, rfl⟩
  simp [subscriberCleanupTargets, List.append_assoc]
  omega

/-- Witness of C13: on a client whose third call fails, the cleanup returns the
error after three calls and commits nothing. -/
theorem removeSubscriberEntriesRelatedToDeviceGroups_aborts_witness :
    (removeSubscriberEntriesRelatedToDeviceGroups testCollections (failingAt 2 "store failure")
        "208" "93" "208930100007487").1 = some "store failure"
      ∧ ((removeSubscriberEntriesRelatedToDeviceGroups testCollections
          (failingAt 2 "store failure") "208" "93" "208930100007487").2.log.drop
            (failingAt 2 "store failure").log.length).length = 2 + 1
      ∧ (removeSubscriberEntriesRelatedToDeviceGroups testCollections
          (failingAt 2 "store failure") "208" "93" "208930100007487").2.committed = [] := by
  have h := removeSubscriberEntriesRelatedToDeviceGroups_aborts testCollections
    (failingAt 2 "store failure") "208" "93" "208930100007487" 2
    (DBCall.RestfulAPIDeleteOneWithContext "subscriptionData.provisionedData.amData"
        [("ueId", .str "imsi-208930100007487"), ("servingPlmnId", .str "20893")])
    "store failure" rfl
    (by
      intro i x hi _
      have hlen : i ≠ 2 := Nat.ne_of_lt hi
      have h5 : i ≤ 5 := by omega
      simp [failingAt, subscriberCleanupTargets, List.length_take, hlen, h5])
    rfl
  exact ⟨h.2.1, h.2.2.2.1, h.2.2.2.2.1⟩

/-! ## Inventory handlers -/

/-- C14: an inventory create that fails validation is rejected with an error and
leaves the config channel as it was. `handlePostGnb` (resp. `handlePostUpf`)
returns nil exactly when the name parameter is present, the body is JSON, the
binding succeeds and the bound tac (resp. port) is not empty; so it returns an
error when the parameter is missing, when the body cannot be bound, when the
bound tac (resp. port) is empty, and when nothing is bound at all. Whenever it
returns an error the channel is unchanged, and when it returns nil exactly one
message has been appended to the channel. -/
theorem handlePost_validation (c : Context) (configChannel : List ConfigMessage) :
    (((handlePostGnb c configChannel).1 = none
          ↔ ((∃ name : String, c.ParamsGet "gnb-name" = some name)
              ∧ splitHead c.ContentType = "application/json"
              ∧ c.ShouldBindJSONGnb.1 = none
              ∧ c.ShouldBindJSONGnb.2.Tac ≠ ""))
      ∧ (c.ParamsGet "gnb-name" = none → (handlePostGnb c configChannel).1 ≠ none)
      ∧ (splitHead c.ContentType = "application/json" → c.ShouldBindJSONGnb.1 ≠ none →
          (handlePostGnb c configChannel).1 ≠ none)
      ∧ (splitHead c.ContentType = "application/json" → c.ShouldBindJSONGnb.2.Tac = "" →
          (handlePostGnb c configChannel).1 ≠ none)
      ∧ (splitHead c.ContentType ≠ "application/json" →
          (handlePostGnb c configChannel).1 ≠ none)
      ∧ ((handlePostGnb c configChannel).1 ≠ none →
          (handlePostGnb c configChannel).2 = configChannel)
      ∧ ((handlePostGnb c configChannel).1 = none →
          ∃ msg : ConfigMessage, (handlePostGnb c configChannel).2 = configChannel ++ [msg]))
    ∧ (((handlePostUpf c configChannel).1 = none
          ↔ ((∃ name : String, c.ParamsGet "upf-hostname" = some name)
              ∧ splitHead c.ContentType = "application/json"
              ∧ c.ShouldBindJSONUpf.1 = none
              ∧ c.ShouldBindJSONUpf.2.Port ≠ ""))
      ∧ (c.ParamsGet "upf-hostname" = none → (handlePostUpf c configChannel).1 ≠ none)
      ∧ (splitHead c.ContentType = "application/json" → c.ShouldBindJSONUpf.1 ≠ none →
          (handlePostUpf c configChannel).1 ≠ none)
      ∧ (splitHead c.ContentType = "application/json" → c.ShouldBindJSONUpf.2.Port = "" →
          (handlePostUpf c configChannel).1 ≠ none)
      ∧ (splitHead c.ContentType ≠ "application/json" →
          (handlePostUpf c configChannel).1 ≠ none)
      ∧ ((handlePostUpf c configChannel).1 ≠ none →
          (handlePostUpf c configChannel).2 = configChannel)
      ∧ ((handlePostUpf c configChannel).1 = none →
          ∃ msg : ConfigMessage, (handlePostUpf c configChannel).2 = configChannel ++ [msg])) := by
  constructor
  ·
    unfold handlePostGnb
    cases hname : c.ParamsGet "gnb-name" with
    | none => simp
    | some name =>
      by_cases hjson : splitHead c.ContentType = "application/json"
      · rcases hbind : c.ShouldBindJSONGnb with ⟨err, bound⟩
        cases err with
        | some e => simp [hjson]
        | none =>
          by_cases hfld : bound.Tac = ""
          · simp [hjson, hfld]
          · simp [hjson, hfld]
      · simp [hjson]
  ·
    unfold handlePostUpf
    cases hname : c.ParamsGet "upf-hostname" with
    | none => simp
    | some name =>
      by_cases hjson : splitHead c.ContentType = "application/json"
      · rcases hbind : c.ShouldBindJSONUpf with ⟨err, bound⟩
        cases err with
        | some e => simp [hjson]
        | none =>
          by_cases hfld : bound.Port = ""
          · simp [hjson, hfld]
          · simp [hjson, hfld]
      · simp [hjson]

/-- Witness of C14: a gNB create whose body carries no tac is rejected and the
channel stays empty. -/
theorem handlePost_validation_witness :
    (handlePostGnb ⟨[("gnb-name", "gnb1")], "application/json", (none, ⟨"gnb1", ""⟩),
        (none, ⟨"", ""⟩)⟩ []).1 ≠ none
      ∧ (handlePostGnb ⟨[("gnb-name", "gnb1")], "application/json", (none, ⟨"gnb1", ""⟩),
        (none, ⟨"", ""⟩)⟩ []).2 = [] :=
  ⟨(handlePost_validation ⟨[("gnb-name", "gnb1")], "application/json", (none, ⟨"gnb1", ""⟩),
      (none, ⟨"", ""⟩)⟩ []).1.2.2.2.1 (by decide) rfl,
   (handlePost_validation ⟨[("gnb-name", "gnb1")], "application/json", (none, ⟨"gnb1", ""⟩),
      (none, ⟨"", ""⟩)⟩ []).1.2.2.2.2.2.1
      ((handlePost_validation ⟨[("gnb-name", "gnb1")], "application/json",
        (none, ⟨"gnb1", ""⟩), (none, ⟨"", ""⟩)⟩ []).1.2.2.2.1 (by decide) rfl)⟩

/-- C15: every event the inventory handlers enqueue carries kind, operation,
key and payload. With the path parameter present, a JSON body that binds and a
bound tac (resp. port) that is not empty, `handlePostGnb` (resp.
`handlePostUpf`) returns nil and appends the message with
`MsgType = Inventory`, `MsgMethod = Post_op`, the key equal to the parameter and
the bound payload with its `Name` (resp. `Hostname`) overwritten by that key,
whatever the body named; and whenever it returns nil this is the message it
appended. `handleDeleteGnb` (resp. `handleDeleteUpf`) with the parameter present
returns nil and appends `MsgType = Inventory`, `MsgMethod = Delete_op`, the key,
and no `Gnb` and no `Upf` payload. -/
theorem inventory_messages (c : Context) (configChannel : List ConfigMessage) :
    (∀ gnbName : String, c.ParamsGet "gnb-name" = some gnbName →
        splitHead c.ContentType = "application/json" →
        c.ShouldBindJSONGnb.1 = none → c.ShouldBindJSONGnb.2.Tac ≠ "" →
        handlePostGnb c configChannel
          = (none, configChannel ++
              [{ MsgType := .Inventory, MsgMethod := .Post_op, GnbName := gnbName,
                   UpfHostname := "",
                   Gnb := some { Name := gnbName, Tac := c.ShouldBindJSONGnb.2.Tac },
                   Upf := none }]))
      ∧ (∀ upfHostname : String, c.ParamsGet "upf-hostname" = some upfHostname →
        splitHead c.ContentType = "application/json" →
        c.ShouldBindJSONUpf.1 = none → c.ShouldBindJSONUpf.2.Port ≠ "" →
        handlePostUpf c configChannel
          = (none, configChannel ++
              [{ MsgType := .Inventory, MsgMethod := .Post_op, GnbName := "",
                   UpfHostname := upfHostname, Gnb := none,
                   Upf := some { Hostname := upfHostname,
                                 Port := c.ShouldBindJSONUpf.2.Port } }]))
      ∧ ((handlePostGnb c configChannel).1 = none →
        ∃ gnbName : String, c.ParamsGet "gnb-name" = some gnbName
          ∧ (handlePostGnb c configChannel).2
            = configChannel ++
              [{ MsgType := .Inventory, MsgMethod := .Post_op, GnbName := gnbName,
                   UpfHostname := "",
                   Gnb := some { Name := gnbName, Tac := c.ShouldBindJSONGnb.2.Tac },
                   Upf := none }])
      ∧ ((handlePostUpf c configChannel).1 = none →
        ∃ upfHostname : String, c.ParamsGet "upf-hostname" = some upfHostname
          ∧ (handlePostUpf c configChannel).2
            = configChannel ++
              [{ MsgType := .Inventory, MsgMethod := .Post_op, GnbName := "",
                   UpfHostname := upfHostname, Gnb := none,
                   Upf := some { Hostname := upfHostname,
                                 Port := c.ShouldBindJSONUpf.2.Port } }])
      ∧ (∀ gnbName : String, c.ParamsGet "gnb-name" = some gnbName →
          handleDeleteGnb c configChannel
            = (none, configChannel ++
                [{ MsgType := .Inventory, MsgMethod := .Delete_op, GnbName := gnbName,
                   UpfHostname := "", Gnb := none, Upf := none }]))
      ∧ (∀ upfHostname : String, c.ParamsGet "upf-hostname" = some upfHostname →
          handleDeleteUpf c configChannel
            = (none, configChannel ++
                [{ MsgType := .Inventory, MsgMethod := .Delete_op, GnbName := "",
                   UpfHostname := upfHostname, Gnb := none, Upf := none }])) := by
  refine ⟨?_, ?_, ?_, ?_, ?_, ?_⟩
  · intro gnbName hname hjson hbind htac
    rcases hb : c.ShouldBindJSONGnb with ⟨err, bound⟩
    rw [hb] at hbind htac
    simp only [] at hbind htac
    subst hbind
    simp [handlePostGnb, hname, hjson, hb, htac]
  · intro upfHostname hname hjson hbind hport
    rcases hb : c.ShouldBindJSONUpf with ⟨err, bound⟩
    rw [hb] at hbind hport
    simp only [] at hbind hport
    subst hbind
    simp [handlePostUpf, hname, hjson, hb, hport]
  ·
    unfold handlePostGnb
    cases hname : c.ParamsGet "gnb-name" with
    | none => simp
    | some name =>
      by_cases hjson : splitHead c.ContentType = "application/json"
      · rcases hbind : c.ShouldBindJSONGnb with ⟨err, bound⟩
        cases err with
        | some e => simp [hjson]
        | none =>
          by_cases hfld : bound.Tac = ""
          · simp [hjson, hfld]
          · simp [hjson, hfld]
      · simp [hjson]
  ·
    unfold handlePostUpf
    cases hname : c.ParamsGet "upf-hostname" with
    | none => simp
    | some name =>
      by_cases hjson : splitHead c.ContentType = "application/json"
      · rcases hbind : c.ShouldBindJSONUpf with ⟨err, bound⟩
        cases err with
        | some e => simp [hjson]
        | none =>
          by_cases hfld : bound.Port = ""
          · simp [hjson, hfld]
          · simp [hjson, hfld]
      · simp [hjson]
  · intro gnbName hname
    simp [handleDeleteGnb, hname]
  · intro upfHostname hname
    simp [handleDeleteUpf, hname]

/-- Witness of C15: a gNB create and a UPF create each enqueue the create
message whose payload is named by the path parameter and not by the body, and a
gNB delete enqueues the delete message with no payload. -/
theorem inventory_messages_witness :
    handlePostGnb ⟨[("gnb-name", "gnb1")], "application/json; charset=utf-8",
        (none, ⟨"name-in-body", "1"⟩), (none, ⟨"", ""⟩)⟩ []
        = (none, [⟨.Inventory, .Post_op, "gnb1", "", some ⟨"gnb1", "1"⟩, none⟩])
      ∧ handlePostUpf ⟨[("upf-hostname", "upf1")], "application/json",
        (none, ⟨"", ""⟩), (none, ⟨"host-in-body", "8805"⟩)⟩ []
        = (none, [⟨.Inventory, .Post_op, "", "upf1", none, some ⟨"upf1", "8805"⟩⟩])
      ∧ handleDeleteGnb ⟨[("gnb-name", "gnb1")], "application/json; charset=utf-8",
        (none, ⟨"name-in-body", "1"⟩), (none, ⟨"", ""⟩)⟩ []
        = (none, [⟨.Inventory, .Delete_op, "gnb1", "", none, none⟩]) :=
  ⟨(inventory_messages ⟨[("gnb-name", "gnb1")], "application/json; charset=utf-8",
        (none, ⟨"name-in-body", "1"⟩), (none, ⟨"", ""⟩)⟩ []).1 "gnb1" rfl (by decide) rfl (by decide),
   (inventory_messages ⟨[("upf-hostname", "upf1")], "application/json",
        (none, ⟨"", ""⟩), (none, ⟨"host-in-body", "8805"⟩)⟩ []).2.1 "upf1" rfl (by decide) rfl (by decide),
   (inventory_messages ⟨[("gnb-name", "gnb1")], "application/json; charset=utf-8",
        (none, ⟨"name-in-body", "1"⟩), (none, ⟨"", ""⟩)⟩ []).2.2.2.2.1 "gnb1" rfl⟩

/-! ## Inventory reads -/

theorem foldl_append_singleton_eq_map {α β : Type} (f : α → β) (xs : List α) (acc : List β) :
    xs.foldl (fun out x => out ++ [f x]) acc = acc ++ xs.map f := by
  induction xs generalizing acc with
  | nil => simp
  | cons x rest ih => simp [List.foldl_cons, ih, List.append_assoc]

/-- C16, the code at the failing input: when the read of the gateway fails,
`GetGnbs` (resp. `GetUpfs`) hands two responses to `c.JSON`: the error status
with the empty list, and after it `http.StatusOK` with the list built from
whatever the read returned, the empty list when it returned nothing. -/
theorem GetInventory_failed_read_writes_twice (e : Error) (rawItems : List BsonM)
    (UnmarshalGnb : BsonM → Option Error × Gnb) (UnmarshalUpf : BsonM → Option Error × Upf)
    (w : ResponseWriter) :
    (GetGnbs (fun _ _ => (rawItems, some e)) UnmarshalGnb w).written
        = w.written ++
          [(StatusInternalServerError, Body.gnbs []),
           (StatusOK, Body.gnbs (rawItems.map (fun raw => (UnmarshalGnb raw).2)))]
      ∧ (GetGnbs (fun _ _ => ([], some e)) UnmarshalGnb w).written
        = w.written ++ [(500, Body.gnbs []), (200, Body.gnbs [])]
      ∧ (GetUpfs (fun _ _ => (rawItems, some e)) UnmarshalUpf w).written
        = w.written ++
          [(StatusInternalServerError, Body.upfs []),
           (StatusOK, Body.upfs (rawItems.map (fun raw => (UnmarshalUpf raw).2)))]
      ∧ (GetUpfs (fun _ _ => ([], some e)) UnmarshalUpf w).written
        = w.written ++ [(500, Body.upfs []), (200, Body.upfs [])] := by
  refine ⟨?_, ?_, ?_, ?_⟩ <;>
    simp [GetGnbs, GetUpfs, ResponseWriter.JSON, setInventoryCorsHeader,
      ResponseWriter.HeaderSet, foldl_append_singleton_eq_map, StatusOK,
      StatusInternalServerError, List.append_assoc]

/-! ## Routes of the inventory handlers -/

/-- C19, the code at the failing input: the routes `PostGnb` and `PostUpf` are
in the table with patterns that declare no parameter, so a request matched by
them reaches `handlePostGnb` (resp. `handlePostUpf`) without `gnb-name` (resp.
`upf-hostname`) and is rejected for the missing name, whatever its body; the
routes `DeleteGnb` and `DeleteUpf` declare their parameter; and no two entries
of the table share both method and pattern. -/
theorem routes_post_inventory_without_name (values : List String) (contentType : String)
    (boundGnb : Option Error × Gnb) (boundUpf : Option Error × Upf)
    (configChannel : List ConfigMessage) :
    (⟨"PostGnb", "POST", "/inventory/gnb", .PostGnb⟩ : Route) ∈ routes
      ∧ (⟨"PostUpf", "POST", "/inventory/upf", .PostUpf⟩ : Route) ∈ routes
      ∧ (∀ route ∈ routes, route.HandlerFunc = HandlerFunc.PostGnb →
          "gnb-name" ∉ pathParams route.Pattern)
      ∧ (∀ route ∈ routes, route.HandlerFunc = HandlerFunc.PostUpf →
          "upf-hostname" ∉ pathParams route.Pattern)
      ∧ handlePostGnb ⟨matchedParams "/inventory/gnb" values, contentType, boundGnb, boundUpf⟩
          configChannel
        = (some "post gNB request is missing gnb-name", configChannel)
      ∧ handlePostUpf ⟨matchedParams "/inventory/upf" values, contentType, boundGnb, boundUpf⟩
          configChannel
        = (some "post UPF request is missing upf-hostname", configChannel)
      ∧ (∀ route ∈ routes, route.HandlerFunc = HandlerFunc.DeleteGnb →
          "gnb-name" ∈ pathParams route.Pattern)
      ∧ (∀ route ∈ routes, route.HandlerFunc = HandlerFunc.DeleteUpf →
          "upf-hostname" ∈ pathParams route.Pattern)
      ∧ (routes.map (fun route => (route.Method, route.Pattern))).Nodup := by
  have hgnb : pathParams "/inventory/gnb" = [] := by decide
  have hupf : pathParams "/inventory/upf" = [] := by decide
  refine ⟨by decide, by decide, by decide, by decide, ?_, ?_, by decide, by decide, by decide⟩
  · simp [handlePostGnb, Context.ParamsGet, matchedParams, hgnb]
  · simp [handlePostUpf, Context.ParamsGet, matchedParams, hupf]

/-! ## Removal of a subscriber from its device groups -/

theorem filteredImsis_foldl_eq (imsi : String) (Imsis acc : List String) :
    Imsis.foldl (fun filteredImsis currImsi =>
        if currImsi != imsi then filteredImsis ++ [currImsi] else filteredImsis) acc
      = acc ++ Imsis.filter (fun x => decide (x ≠ imsi)) := by
  induction Imsis generalizing acc with
  | nil => simp
  | cons a rest ih =>
    rw [List.foldl_cons, ih]
    by_cases h : a = imsi
    · simp [h]
    · simp [h, List.append_assoc]

theorem filteredImsis_eq_filter (imsi : String) (Imsis : List String) :
    updateSubscriberInDeviceGroups.filteredImsis imsi Imsis
      = Imsis.filter (fun x => decide (x ≠ imsi)) := by
  unfold updateSubscriberInDeviceGroups.filteredImsis
  rw [filteredImsis_foldl_eq]
  simp

theorem updateSubscriberInDeviceGroups_loop_posted {σ : Type} (ops : DeviceGroupOps σ)
    (Unmarshal : BsonM → Option Error × DeviceGroups) (imsi : String)
    (raws : List BsonM) (store : σ) (posted : List (DeviceGroups × Option DeviceGroups)) :
    ∃ news : List (DeviceGroups × Option DeviceGroups),
      (updateSubscriberInDeviceGroups.loop ops Unmarshal imsi raws store posted).2.2
          = posted ++ news
        ∧ ∀ p ∈ news, ∃ raw ∈ raws, ∃ stored : DeviceGroups,
            Unmarshal raw = (none, stored)
              ∧ p.1 = { stored with
                        Imsis := updateSubscriberInDeviceGroups.filteredImsis imsi stored.Imsis } := by
  induction raws generalizing store posted with
  | nil => exact ⟨[], by simp [updateSubscriberInDeviceGroups.loop]⟩
  | cons raw rest ih =>
    rcases hU : Unmarshal raw with ⟨err, stored⟩
    cases err with
    | some e => exact ⟨[], by simp [updateSubscriberInDeviceGroups.loop, hU]⟩
    | none =>
      rcases hP : ops.handleDeviceGroupPost store
          { stored with
            Imsis := updateSubscriberInDeviceGroups.filteredImsis imsi stored.Imsis }
          (ops.getDeviceGroupByName store stored.DeviceGroupName) with ⟨⟨code, perr⟩, store1⟩
      cases perr with
      | some e =>
        refine ⟨[({ stored with
            Imsis := updateSubscriberInDeviceGroups.filteredImsis imsi stored.Imsis },
            ops.getDeviceGroupByName store stored.DeviceGroupName)], ?_, ?_⟩
        · simp [updateSubscriberInDeviceGroups.loop, hU, hP]
        · intro p hp
          simp only [List.mem_singleton] at hp
          subst hp
          exact ⟨raw, List.mem_cons_self _ _, stored, hU, rfl⟩
      | none =>
        obtain ⟨news, hnews, hall⟩ := ih store1
          (posted ++ [({ stored with
            Imsis := updateSubscriberInDeviceGroups.filteredImsis imsi stored.Imsis },
            ops.getDeviceGroupByName store stored.DeviceGroupName)])
        refine ⟨({ stored with
            Imsis := updateSubscriberInDeviceGroups.filteredImsis imsi stored.Imsis },
            ops.getDeviceGroupByName store stored.DeviceGroupName) :: news, ?_, ?_⟩
        · simp only [updateSubscriberInDeviceGroups.loop, hU, hP]
          rw [hnews]
          simp [List.append_assoc]
        · intro p hp
          rcases List.mem_cons.1 hp with hp | hp
          · subst hp
            exact ⟨raw, List.mem_cons_self _ _, stored, hU, rfl⟩
          · obtain ⟨raw1, hraw1, stored1, h1, h2⟩ := hall p hp
            exact ⟨raw1, List.mem_cons_of_mem _ hraw1, stored1, h1, h2⟩

/-- C18: every device group that `updateSubscriberInDeviceGroups` hands to
`handleDeviceGroupPost` comes from a fetched group and keeps its name, with
`Imsis` equal to the stored `Imsis` without the occurrences of `imsi`, the other
identifiers in their order and multiplicity; so `imsi` is not a member of it, it
is the stored list when `imsi` did not occur, and `getDeletedImsisList` of it
against the stored group holds copies of `imsi` only. -/
theorem updateSubscriberInDeviceGroups_posted {σ : Type} (c : Collections)
    (ops : DeviceGroupOps σ) (RestfulAPIGetMany : String → BsonM → List BsonM × Option Error)
    (Unmarshal : BsonM → Option Error × DeviceGroups) (store : σ) (imsi : String)
    (p : DeviceGroups × Option DeviceGroups)
    (hp : p ∈ (updateSubscriberInDeviceGroups c ops RestfulAPIGetMany Unmarshal store
      imsi).2.2) :
    ∃ raw ∈ (RestfulAPIGetMany c.devGroupDataColl [("imsis", .str imsi)]).1,
      ∃ stored : DeviceGroups,
        Unmarshal raw = (none, stored)
          ∧ p.1.DeviceGroupName = stored.DeviceGroupName
          ∧ p.1.Imsis = stored.Imsis.filter (fun x => decide (x ≠ imsi))
          ∧ imsi ∉ p.1.Imsis
          ∧ (imsi ∉ stored.Imsis → p.1.Imsis = stored.Imsis)
          ∧ getDeletedImsisList (some p.1) (some stored)
              = stored.Imsis.filter (fun x => decide (x = imsi))
          ∧ ∀ x ∈ getDeletedImsisList (some p.1) (some stored), x = imsi := by
  simp only [updateSubscriberInDeviceGroups] at hp
  generalize RestfulAPIGetMany c.devGroupDataColl [("imsis", .str imsi)] = fetched at hp ⊢
  rcases fetched with ⟨raws, gerr⟩
  cases gerr with
  | some e => simp at hp
  | none =>
    simp only [] at hp
    obtain ⟨news, hnews, hall⟩ :=
      updateSubscriberInDeviceGroups_loop_posted ops Unmarshal imsi raws store []
    rw [hnews, List.nil_append] at hp
    obtain ⟨raw, hraw, stored, hU, hp1⟩ := hall p hp
    refine ⟨raw, hraw, stored, hU, ?_⟩
    have hImsis : p.1.Imsis = stored.Imsis.filter (fun x => decide (x ≠ imsi)) := by
      rw [hp1]
      exact filteredImsis_eq_filter imsi stored.Imsis
    have hdel : getDeletedImsisList (some p.1) (some stored)
        = stored.Imsis.filter (fun x => decide (x = imsi)) := by
      simp only [getDeletedImsisList]
      rw [delta_foldl_eq, hImsis, List.nil_append]
      apply List.filter_congr
      intro x hx
      simp [List.mem_filter, hx]
    refine ⟨by rw [hp1], hImsis, ?_, ?_, hdel, ?_⟩
    · rw [hImsis]
      simp [List.mem_filter]
    · intro hnot
      rw [hImsis]
      apply List.filter_eq_self.2
      intro x hx
      have : x ≠ imsi := fun h => hnot (h ▸ hx)
      simpa using this
    · intro x hx
      rw [hdel] at hx
      simpa using (List.mem_filter.1 hx).2

/-- Witness of C18: for a stored group `dg1` with members `a, b, a, c`, removing
`a` hands over the members `b, c`, and the deleted identifiers are copies of
`a` only. -/
theorem updateSubscriberInDeviceGroups_posted_witness :
    (⟨"dg1", ["b", "c"]⟩, (none : Option DeviceGroups))
        ∈ (updateSubscriberInDeviceGroups testCollections
            (⟨fun _ _ => none, fun _ _ _ => ((StatusOK, none), ())⟩ : DeviceGroupOps Unit)
            (fun _ _ => ([[("group-name", .str "dg1")]], none))
            (fun _ => (none, ⟨"dg1", ["a", "b", "a", "c"]⟩)) () "a").2.2
      ∧ ∀ x ∈ getDeletedImsisList (some ⟨"dg1", ["b", "c"]⟩)
          (some ⟨"dg1", ["a", "b", "a", "c"]⟩), x = "a" := by
  refine ⟨by decide, ?_⟩
  obtain ⟨raw, _, stored, hU, _, _, _, _, _, hall⟩ :=
    updateSubscriberInDeviceGroups_posted testCollections
      (⟨fun _ _ => none, fun _ _ _ => ((StatusOK, none), ())⟩ : DeviceGroupOps Unit)
      (fun _ _ => ([[("group-name", .str "dg1")]], none))
      (fun _ => (none, ⟨"dg1", ["a", "b", "a", "c"]⟩)) () "a"
      (⟨"dg1", ["b", "c"]⟩, none) (by decide)
  cases hU
  exact hall

end Webconsole
